import Mathlib

/-!
# Cart service of the Qkart backend

Shallow embedding of `src/services/cart.service.js`.

The service is five sequential operations over a document store. The store is
modelled as three collections (carts, products, users), each a list of
documents in insertion order. Every operation takes the store before the call
and yields the store after it together with what the JavaScript function
returned or threw.

Modelling conventions:

* JavaScript numbers (`cost`, `quantity`, `walletMoney`) are integers.
* Identifiers and e-mail addresses are strings; the loose comparison
  `item.product._id == productId` is string equality.
* `Product.findById` looks a product up by the text of its `_id`, which is the
  lookup of the source for an id written as the store writes it (lower-case
  hexadecimal). The library behind `findById` casts the string first, so an id
  written in upper case finds the same product; `castObjectId`,
  `Product.findByIdAnyCase` and `addProductToCartAnyCase` cover that case.
* `await` points are sequential: a call runs to completion on the store it was
  given. The un-awaited `cart.save()` that ends `checkout` is taken as
  completed when the call is over.
* Reads and writes of existing documents complete. The one persistence failure
  the source handles itself, the rejected write of a new cart document in
  `addProductToCart`, is a parameter of that operation.
-/

namespace Qkart

/-! ## Errors -/

/-- Error object thrown by the service: an HTTP status code and a message. -/
structure ApiError where
  statusCode : Nat
  message : String
  deriving DecidableEq, Repr

namespace httpStatus

def BAD_REQUEST : Nat := 400
def NOT_FOUND : Nat := 404
def INTERNAL_SERVER_ERROR : Nat := 500

end httpStatus

/-! ## Documents -/

/-- Product document: read-only reference data looked up by `_id`. -/
structure Product where
  _id : String
  name : String
  category : String
  rating : Int
  cost : Int
  image : String
  deriving DecidableEq, Repr

/-- Cart line: an embedded product together with a quantity. -/
structure CartItem where
  product : Product
  quantity : Int
  deriving DecidableEq, Repr

/-- Cart document, keyed by the e-mail address of its owner. -/
structure Cart where
  email : String
  cartItems : List CartItem
  paymentOption : String
  deriving DecidableEq, Repr

/-- Modelled from the spec: the `User` model is outside the service file. A user
has an e-mail address, a wallet balance, and the answer of the capability
`hasSetNonDefaultAddress()`, which the service only calls. -/
structure User where
  email : String
  walletMoney : Int
  hasSetNonDefaultAddress : Bool
  deriving DecidableEq, Repr

/-- Document store: the three collections the service reads and writes. -/
structure Store where
  carts : List Cart
  products : List Product
  users : List User
  deriving DecidableEq, Repr

/-! ## Persistence layer -/

/-- Query `Cart.findOne({ email })`: the first cart document with that e-mail. -/
def Cart.findOne (carts : List Cart) (email : String) : Option Cart :=
  carts.find? (fun c => c.email == email)

/-- Query `Product.findById(productId)`: the first product with that `_id`. -/
def Product.findById (products : List Product) (productId : String) : Option Product :=
  products.find? (fun p => p._id == productId)

/-- Method `cart.save()` on a document obtained from `findOne`: the stored
document it was read from, the first one with its e-mail, is overwritten. -/
def Cart.save : List Cart → Cart → List Cart
  | [], _ => []
  | d :: ds, c => if d.email == c.email then c :: ds else d :: Cart.save ds c

/-- Method `save()` on a freshly constructed cart document: the document is
inserted into the collection, unless the write is rejected. -/
def Cart.saveNew (rejected : Bool) (carts : List Cart) (c : Cart) : Option (Cart × List Cart) :=
  if rejected then none else some (c, carts ++ [c])

/-- Method `user.save()`: the stored user with that e-mail is overwritten. -/
def User.save : List User → User → List User
  | [], _ => []
  | d :: ds, u => if d.email == u.email then u :: ds else d :: User.save ds u

/-- Schema default of `paymentOption` (shown in the return format comment). -/
def PAYMENT_OPTION_DEFAULT : String := "PAYMENT_OPTION_DEFAULT"

/-! ## Array helpers -/

/-- JavaScript `Array.prototype.findIndex`: index of the first element that
satisfies the predicate, `-1` when there is none. -/
def findIndex {α : Type} (p : α → Bool) : List α → Int
  | [] => -1
  | x :: xs =>
    if p x then 0
    else if findIndex p xs < 0 then -1 else findIndex p xs + 1

/-- Assignment `cartItems[i].quantity = quantity`. -/
def setQuantity (items : List CartItem) (i : Nat) (quantity : Int) : List CartItem :=
  match items[i]? with
  | some it => items.set i { it with quantity := quantity }
  | none => items

/-! ## Service operations -/

/-- What a call leaves behind: the value returned or the error thrown, and the
store after the call. -/
structure Outcome (α : Type) where
  result : Except ApiError α
  store : Store

/-- Operation `getCartByUser(user)`. -/
def getCartByUser (s : Store) (user : User) : Outcome Cart :=
  let email := user.email
  match Cart.findOne s.carts email with
  | none => ⟨.error ⟨httpStatus.NOT_FOUND, "User does not have a cart"⟩, s⟩
  | some cart => ⟨.ok cart, s⟩

/-- Operation `addProductToCart(user, productId, quantity)`. The flag
`createRejected` says whether the write of a new cart document fails. -/
def addProductToCart (createRejected : Bool) (s : Store) (user : User)
    (productId : String) (quantity : Int) : Outcome Cart :=
  let email := user.email
  let found := Cart.findOne s.carts email
  let product := Product.findById s.products productId
  let ensured : Except ApiError (Cart × Store) :=
    match found with
    | some cart => .ok (cart, s)
    | none =>
      match Cart.saveNew createRejected s.carts
          { email := user.email, cartItems := [], paymentOption := PAYMENT_OPTION_DEFAULT } with
      | some (cart, carts) => .ok (cart, { s with carts := carts })
      | none => .error ⟨httpStatus.INTERNAL_SERVER_ERROR, "Internal Server Error"⟩
  match ensured with
  | .error e => ⟨.error e, s⟩
  | .ok (cart, s1) =>
    let existingCartItem := cart.cartItems.find? (fun item => item.product._id == productId)
    if existingCartItem.isSome then
      ⟨.error ⟨httpStatus.BAD_REQUEST,
        "Product already in cart. Use the cart sidebar to update or remove product from cart"⟩, s1⟩
    else
      match product with
      | none => ⟨.error ⟨httpStatus.BAD_REQUEST, "Product doesn't exist in database"⟩, s1⟩
      | some product =>
        let cartItem : CartItem := { product := product, quantity := quantity }
        let cart1 : Cart := { cart with cartItems := cart.cartItems ++ [cartItem] }
        ⟨.ok cart1, { s1 with carts := Cart.save s1.carts cart1 }⟩

/-- Operation `updateProductInCart(user, productId, quantity)`. -/
def updateProductInCart (s : Store) (user : User) (productId : String) (quantity : Int) :
    Outcome Cart :=
  let email := user.email
  match Cart.findOne s.carts email with
  | none =>
    ⟨.error ⟨httpStatus.BAD_REQUEST,
      "User does not have a cart. Use POST to create cart and add a product"⟩, s⟩
  | some userCart =>
    let cartItemIndex := findIndex (fun it => it.product._id == productId) userCart.cartItems
    match Product.findById s.products productId with
    | none => ⟨.error ⟨httpStatus.BAD_REQUEST, "Product doesn't exist in database"⟩, s⟩
    | some _ =>
      if cartItemIndex < 0 then
        ⟨.error ⟨httpStatus.BAD_REQUEST, "Product not in cart"⟩, s⟩
      else
        let userCart1 : Cart :=
          { userCart with
            cartItems := setQuantity userCart.cartItems cartItemIndex.toNat quantity }
        ⟨.ok userCart1, { s with carts := Cart.save s.carts userCart1 }⟩

/-- Operation `deleteProductFromCart(user, productId)`. -/
def deleteProductFromCart (s : Store) (user : User) (productId : String) : Outcome Cart :=
  let email := user.email
  match Cart.findOne s.carts email with
  | none => ⟨.error ⟨httpStatus.BAD_REQUEST, "User does not have a cart"⟩, s⟩
  | some userCart =>
    let cartItemIndex := findIndex (fun it => it.product._id == productId) userCart.cartItems
    if cartItemIndex < 0 then
      ⟨.error ⟨httpStatus.BAD_REQUEST, "Product not in cart"⟩, s⟩
    else
      let userCart1 : Cart :=
        { userCart with cartItems := userCart.cartItems.eraseIdx cartItemIndex.toNat }
      ⟨.ok userCart1, { s with carts := Cart.save s.carts userCart1 }⟩

/-- Loop of `checkout` that accumulates `cost * quantity` over the cart items. -/
def cartTotal (items : List CartItem) : Int :=
  items.foldl (fun total item => total + item.product.cost * item.quantity) 0

/-- What `checkout` leaves behind: success or the error thrown, the `user`
object after the call, and the store after the call. -/
structure CheckoutOutcome where
  result : Except ApiError Unit
  user : User
  store : Store

/-- Operation `checkout(user)`. -/
def checkout (s : Store) (user : User) : CheckoutOutcome :=
  let email := user.email
  match Cart.findOne s.carts email with
  | none => ⟨.error ⟨httpStatus.NOT_FOUND, "User does not have a cart"⟩, user, s⟩
  | some cart =>
    if cart.cartItems.length == 0 then
      ⟨.error ⟨httpStatus.BAD_REQUEST, "Cart is empty"⟩, user, s⟩
    else if !user.hasSetNonDefaultAddress then
      ⟨.error ⟨httpStatus.BAD_REQUEST, "Address not set"⟩, user, s⟩
    else
      let total := cartTotal cart.cartItems
      if total > user.walletMoney then
        ⟨.error ⟨httpStatus.BAD_REQUEST, "Insufficient money to checkout"⟩, user, s⟩
      else
        let user1 : User := { user with walletMoney := user.walletMoney - total }
        let users1 := User.save s.users user1
        let cart1 : Cart := { cart with cartItems := [] }
        ⟨.ok (), user1, { s with users := users1, carts := Cart.save s.carts cart1 }⟩

/-! ## Product ids in any letter case -/

/-- Cast of a product id to an ObjectId, as the library lookup behind
`Product.findById` applies it to the string it is given. The text of an
ObjectId is lower-case hexadecimal, so the cast of a well-formed id is the id
in lower case. -/
def castObjectId (productId : String) : String :=
  String.mk (productId.data.map Char.toLower)

/-- Query `Product.findById(productId)` for an id in any letter case: the
string is cast, then the product with that `_id` is looked up. -/
def Product.findByIdAnyCase (products : List Product) (productId : String) : Option Product :=
  Product.findById products (castObjectId productId)

/-- Operation `addProductToCart(user, productId, quantity)` for an id in any
letter case. The lookup (line 60) casts the id; the duplicate test (lines
85-87) compares the `_id` of each item with the string as it was passed. -/
def addProductToCartAnyCase (createRejected : Bool) (s : Store) (user : User)
    (productId : String) (quantity : Int) : Outcome Cart :=
  let email := user.email
  let found := Cart.findOne s.carts email
  let product := Product.findByIdAnyCase s.products productId
  let ensured : Except ApiError (Cart × Store) :=
    match found with
    | some cart => .ok (cart, s)
    | none =>
      match Cart.saveNew createRejected s.carts
          { email := user.email, cartItems := [], paymentOption := PAYMENT_OPTION_DEFAULT } with
      | some (cart, carts) => .ok (cart, { s with carts := carts })
      | none => .error ⟨httpStatus.INTERNAL_SERVER_ERROR, "Internal Server Error"⟩
  match ensured with
  | .error e => ⟨.error e, s⟩
  | .ok (cart, s1) =>
    let existingCartItem := cart.cartItems.find? (fun item => item.product._id == productId)
    if existingCartItem.isSome then
      ⟨.error ⟨httpStatus.BAD_REQUEST,
        "Product already in cart. Use the cart sidebar to update or remove product from cart"⟩, s1⟩
    else
      match product with
      | none => ⟨.error ⟨httpStatus.BAD_REQUEST, "Product doesn't exist in database"⟩, s1⟩
      | some product =>
        let cartItem : CartItem := { product := product, quantity := quantity }
        let cart1 : Cart := { cart with cartItems := cart.cartItems ++ [cartItem] }
        ⟨.ok cart1, { s1 with carts := Cart.save s1.carts cart1 }⟩

/-! ## Sequences of calls -/

/-- One call of the service with its arguments. -/
inductive Call where
  | getCartByUser (user : User)
  | addProductToCart (createRejected : Bool) (user : User) (productId : String) (quantity : Int)
  | updateProductInCart (user : User) (productId : String) (quantity : Int)
  | deleteProductFromCart (user : User) (productId : String)
  | checkout (user : User)

/-- Store after one call. -/
def Call.run (s : Store) : Call → Store
  | .getCartByUser user => (Qkart.getCartByUser s user).store
  | .addProductToCart createRejected user productId quantity =>
    (Qkart.addProductToCart createRejected s user productId quantity).store
  | .updateProductInCart user productId quantity =>
    (Qkart.updateProductInCart s user productId quantity).store
  | .deleteProductFromCart user productId => (Qkart.deleteProductFromCart s user productId).store
  | .checkout user => (Qkart.checkout s user).store

/-- Store after a sequence of calls, executed one after the other. -/
def runCalls (s : Store) (calls : List Call) : Store :=
  calls.foldl Call.run s

/-- Uniqueness predicate on one item sequence: the product identifiers of the
items are pairwise distinct. -/
def UniqueProducts (items : List CartItem) : Prop :=
  (items.map (fun it => it.product._id)).Nodup

/-- Uniqueness predicate on a store: it holds of every cart. -/
def CartsUnique (s : Store) : Prop :=
  ∀ c ∈ s.carts, UniqueProducts c.cartItems

instance (items : List CartItem) : Decidable (UniqueProducts items) :=
  inferInstanceAs (Decidable (List.Nodup (items.map (fun it : CartItem => it.product._id))))

instance (s : Store) : Decidable (CartsUnique s) :=
  inferInstanceAs (Decidable (∀ c ∈ s.carts, UniqueProducts c.cartItems))

/-- Sum the claims speak of: `cost * quantity` added up over the items. -/
def itemsSum (items : List CartItem) : Int :=
  (items.map (fun it => it.product.cost * it.quantity)).sum

/-- Positive-quantity predicate on a store: every item of every cart has a
quantity of at least one. -/
def QuantitiesPositive (s : Store) : Prop :=
  ∀ c ∈ s.carts, ∀ it ∈ c.cartItems, 1 ≤ it.quantity

instance (s : Store) : Decidable (QuantitiesPositive s) :=
  inferInstanceAs (Decidable (∀ c ∈ s.carts, ∀ it ∈ c.cartItems, 1 ≤ it.quantity))

/-- Non-negative wallets: every stored user has a wallet balance of at least
zero. -/
def WalletsNonneg (s : Store) : Prop :=
  ∀ u ∈ s.users, 0 ≤ u.walletMoney

instance (s : Store) : Decidable (WalletsNonneg s) :=
  inferInstanceAs (Decidable (∀ u ∈ s.users, 0 ≤ u.walletMoney))

/-- Stored user document with the given e-mail, the first one in the
collection. The service makes no such query; the definition serves to say what
the store holds for a user. -/
def User.findOne (users : List User) (email : String) : Option User :=
  users.find? (fun d => d.email == email)

/-! ## Sample data -/

/-- Product of the return format comment: a ball that costs 20. -/
def ball : Product :=
  { _id := "5f71c1ca04c69a5874e9fd45", name := "ball", category := "Sports", rating := 5,
    cost := 20, image := "google.com" }

/-- A second product, which costs 15. -/
def bat : Product :=
  { _id := "5f71c1ca04c69a5874e9fd46", name := "bat", category := "Sports", rating := 4,
    cost := 15, image := "google.com" }

/-- A user with 100 in the wallet and an address set. -/
def crioUser : User :=
  { email := "crio-user@gmail.com", walletMoney := 100, hasSetNonDefaultAddress := true }

/-- A user with 50 in the wallet and no address set. -/
def newUser : User :=
  { email := "new-user@gmail.com", walletMoney := 50, hasSetNonDefaultAddress := false }

/-- The cart of `crioUser`: two balls and one bat, 55 in total. -/
def crioCart : Cart :=
  { email := "crio-user@gmail.com",
    cartItems := [{ product := ball, quantity := 2 }, { product := bat, quantity := 1 }],
    paymentOption := PAYMENT_OPTION_DEFAULT }

/-- The cart of `newUser`: four bats, 60 in total. -/
def newCart : Cart :=
  { email := "new-user@gmail.com", cartItems := [{ product := bat, quantity := 4 }],
    paymentOption := PAYMENT_OPTION_DEFAULT }

/-- A store with both products, both users and their carts. -/
def sampleStore : Store :=
  { carts := [crioCart, newCart], products := [ball, bat], users := [crioUser, newUser] }

/-- A store with both products and both users, and no cart yet. -/
def freshStore : Store :=
  { carts := [], products := [ball, bat], users := [crioUser, newUser] }

/-! ## Lemmas on the persistence layer -/

theorem Cart.findOne_save {carts : List Cart} {c0 c : Cart}
    (h : Cart.findOne carts c.email = some c0) :
    Cart.findOne (Cart.save carts c) c.email = some c := by
  induction carts with
  | nil => simp [Cart.findOne] at h
  | cons d ds ih =>
    unfold Cart.findOne at h ih ⊢
    by_cases hd : d.email = c.email
    · simp [Cart.save, hd]
    · simp [Cart.save, hd, List.find?_cons] at h ⊢
      exact ih h

theorem Cart.findOne_save_of_ne {carts : List Cart} {c : Cart} {email : String}
    (h : email ≠ c.email) :
    Cart.findOne (Cart.save carts c) email = Cart.findOne carts email := by
  induction carts with
  | nil => rfl
  | cons d ds ih =>
    unfold Cart.findOne at ih ⊢
    by_cases hd : d.email = c.email
    · have hde : ¬ d.email = email := fun h1 => h (h1 ▸ hd)
      simp [Cart.save, hd, List.find?_cons, hde, Ne.symm h]
    · by_cases hde : d.email = email
      · subst hde
        simp [Cart.save, hd, List.find?_cons]
      · simp [Cart.save, hd, List.find?_cons, hde, ih]

theorem Cart.mem_save {carts : List Cart} {c x : Cart} (h : x ∈ Cart.save carts c) :
    x ∈ carts ∨ x = c := by
  induction carts with
  | nil => simp [Cart.save] at h
  | cons d ds ih =>
    by_cases hd : d.email = c.email
    · simp only [Cart.save, beq_iff_eq, hd, if_true, List.mem_cons] at h
      rcases h with h | h
      · exact Or.inr h
      · exact Or.inl (List.mem_cons_of_mem _ h)
    · simp only [Cart.save, beq_iff_eq, hd, if_false, List.mem_cons] at h
      rcases h with h | h
      · exact Or.inl (h ▸ List.mem_cons_self _ _)
      · rcases ih h with h1 | h1
        · exact Or.inl (List.mem_cons_of_mem _ h1)
        · exact Or.inr h1

theorem Cart.findOne_email {carts : List Cart} {email : String} {c : Cart}
    (h : Cart.findOne carts email = some c) : c.email = email := by
  have := List.find?_some h
  simpa using this

theorem Cart.findOne_mem {carts : List Cart} {email : String} {c : Cart}
    (h : Cart.findOne carts email = some c) : c ∈ carts :=
  List.mem_of_find?_eq_some h

theorem Cart.findOne_append_new {carts : List Cart} {c : Cart}
    (h : Cart.findOne carts c.email = none) :
    Cart.findOne (carts ++ [c]) c.email = some c := by
  unfold Cart.findOne at h ⊢
  rw [List.find?_append, h]
  simp

theorem Product.findById_id {products : List Product} {productId : String} {p : Product}
    (h : Product.findById products productId = some p) : p._id = productId := by
  have := List.find?_some h
  simpa using this

theorem User.find_save {users : List User} {u0 u : User}
    (h : users.find? (fun d => d.email == u.email) = some u0) :
    (User.save users u).find? (fun d => d.email == u.email) = some u := by
  induction users with
  | nil => simp at h
  | cons d ds ih =>
    by_cases hd : d.email = u.email
    · simp [User.save, hd]
    · simp [User.save, hd, List.find?_cons] at h ⊢
      exact ih h

theorem cartTotal_eq_itemsSum (items : List CartItem) : cartTotal items = itemsSum items := by
  have key : ∀ (l : List CartItem) (a : Int),
      l.foldl (fun total item => total + item.product.cost * item.quantity) a
        = a + itemsSum l := by
    intro l
    induction l with
    | nil => intro a; simp [itemsSum]
    | cons x xs ih =>
      intro a
      simp only [List.foldl_cons, ih, itemsSum, List.map_cons, List.sum_cons]
      ring
  simpa [cartTotal] using key items 0

/-! ## Lemmas on the array helpers -/

theorem findIndex_neg_iff {α : Type} (p : α → Bool) (xs : List α) :
    findIndex p xs < 0 ↔ ∀ x ∈ xs, p x = false := by
  induction xs with
  | nil => simp [findIndex]
  | cons x xs ih =>
    by_cases hx : p x = true
    · simp [findIndex, hx]
    · by_cases hr : findIndex p xs < 0
      · have := ih.mp hr
        simp [findIndex, hx, hr]
        exact this
      · have hne : ¬ ∀ y ∈ xs, p y = false := fun h => hr (ih.mpr h)
        have e : findIndex p (x :: xs) = findIndex p xs + 1 := by simp [findIndex, hx, hr]
        rw [e]
        constructor
        · intro h1
          omega
        · intro hall
          exact absurd (fun y hy => hall y (List.mem_cons_of_mem _ hy)) hne

theorem findIndex_split {α : Type} (p : α → Bool) (xs : List α) (h : ¬ findIndex p xs < 0) :
    ∃ l1 x l2, xs = l1 ++ x :: l2 ∧ p x = true ∧ (∀ y ∈ l1, p y = false) ∧
      (findIndex p xs).toNat = l1.length := by
  induction xs with
  | nil => simp [findIndex] at h
  | cons x xs ih =>
    by_cases hx : p x = true
    · exact ⟨[], x, xs, rfl, hx, by simp, by simp [findIndex, hx]⟩
    · by_cases hr : findIndex p xs < 0
      · simp [findIndex, hx, hr] at h
      · obtain ⟨l1, y, l2, hxs, hy, hl1, hlen⟩ := ih hr
        refine ⟨x :: l1, y, l2, by simp [hxs], hy, ?_, ?_⟩
        · intro z hz
          rcases List.mem_cons.mp hz with rfl | hz
          · simpa using hx
          · exact hl1 z hz
        · have e : findIndex p (x :: xs) = findIndex p xs + 1 := by simp [findIndex, hx, hr]
          rw [e, List.length_cons]
          omega

theorem eraseIdx_append_cons {α : Type} (l1 : List α) (x : α) (l2 : List α) :
    (l1 ++ x :: l2).eraseIdx l1.length = l1 ++ l2 := by
  induction l1 with
  | nil => rfl
  | cons a l1 ih => simp [List.eraseIdx, ih]

theorem setQuantity_append_cons (l1 : List CartItem) (x : CartItem) (l2 : List CartItem)
    (quantity : Int) :
    setQuantity (l1 ++ x :: l2) l1.length quantity
      = l1 ++ { product := x.product, quantity := quantity } :: l2 := by
  have hget : (l1 ++ x :: l2)[l1.length]? = some x := by
    induction l1 with
    | nil => simp
    | cons a l1 ih => simpa using ih
  have hset : ∀ (y : CartItem), (l1 ++ x :: l2).set l1.length y = l1 ++ y :: l2 := by
    intro y
    induction l1 with
    | nil => rfl
    | cons a l1 ih => simp [ih]
  simp only [setQuantity, hget, hset]

/-! ## Lemmas on checkout -/

theorem checkout_of_passing {s : Store} {user : User} {cart : Cart}
    (hcart : Cart.findOne s.carts user.email = some cart)
    (hitems : cart.cartItems ≠ [])
    (haddr : user.hasSetNonDefaultAddress = true)
    (hfunds : itemsSum cart.cartItems ≤ user.walletMoney) :
    checkout s user
      = ⟨.ok (), { user with walletMoney := user.walletMoney - itemsSum cart.cartItems },
          { s with
            users := User.save s.users
              { user with walletMoney := user.walletMoney - itemsSum cart.cartItems },
            carts := Cart.save s.carts { cart with cartItems := [] } }⟩ := by
  have hlen : ¬ cart.cartItems.length = 0 := fun h => hitems (List.length_eq_zero.mp h)
  have hle : ¬ itemsSum cart.cartItems > user.walletMoney := not_lt.mpr hfunds
  simp [checkout, hcart, hlen, haddr, cartTotal_eq_itemsSum, hle]

/-! ## Checkout -/

/-- C1: when the cart of the user exists and is non-empty, the user has a
non-default address, and the sum of `cost * quantity` over the cart items is at
most the wallet balance (equality included), `checkout` succeeds; afterwards
the user is the old user with the wallet reduced by that sum, the stored user
document (when there is one) is that user, and the stored cart is the old cart
with an empty item sequence. -/
theorem checkout_success (s : Store) (user : User) (cart : Cart)
    (hcart : Cart.findOne s.carts user.email = some cart)
    (hitems : cart.cartItems ≠ [])
    (haddr : user.hasSetNonDefaultAddress = true)
    (hfunds : itemsSum cart.cartItems ≤ user.walletMoney) :
    (checkout s user).result = .ok () ∧
    (checkout s user).user.walletMoney = user.walletMoney - itemsSum cart.cartItems ∧
    (checkout s user).user
      = { user with walletMoney := user.walletMoney - itemsSum cart.cartItems } ∧
    (∀ u0, s.users.find? (fun d => d.email == user.email) = some u0 →
      (checkout s user).store.users.find? (fun d => d.email == user.email)
        = some (checkout s user).user) ∧
    Cart.findOne (checkout s user).store.carts user.email
      = some { cart with cartItems := [] } := by
  have hemail : cart.email = user.email := Cart.findOne_email hcart
  rw [checkout_of_passing hcart hitems haddr hfunds]
  refine ⟨rfl, rfl, rfl, ?_, ?_⟩
  · intro u0 hu0
    exact User.find_save
      (u := { user with walletMoney := user.walletMoney - itemsSum cart.cartItems }) hu0
  · have h1 : Cart.findOne s.carts ({ cart with cartItems := [] } : Cart).email = some cart := by
      simpa [hemail] using hcart
    have h2 := Cart.findOne_save h1
    simpa [hemail] using h2

/-- Witness of C1 on the sample store: the total is 55, the wallet holds 100. -/
theorem checkout_success_witness :
    Cart.findOne sampleStore.carts crioUser.email = some crioCart ∧
    (checkout sampleStore crioUser).result = .ok () ∧
    (checkout sampleStore crioUser).user.walletMoney = 45 ∧
    Cart.findOne (checkout sampleStore crioUser).store.carts crioUser.email
      = some { crioCart with cartItems := [] } := by
  have h := checkout_success sampleStore crioUser crioCart (by decide) (by decide) (by decide)
    (by decide)
  exact ⟨by decide, h.1, by decide, h.2.2.2.2⟩

/-- C2: when `checkout` fails, with whatever error, the store after the call is
the store before it (every cart and every stored wallet is as it was) and the
user object is unchanged. -/
theorem checkout_failure_unchanged (s : Store) (user : User) (e : ApiError)
    (h : (checkout s user).result = .error e) :
    (checkout s user).store = s ∧ (checkout s user).user = user := by
  cases hc : Cart.findOne s.carts user.email with
  | none => simp [checkout, hc]
  | some cart =>
    simp only [checkout, hc] at h ⊢
    split_ifs at h ⊢ <;> exact ⟨rfl, rfl⟩

/-- Witness of C2: the user without an address fails and nothing changes. -/
theorem checkout_failure_unchanged_witness :
    (checkout sampleStore newUser).result = .error ⟨400, "Address not set"⟩ ∧
    (checkout sampleStore newUser).store = sampleStore ∧
    (checkout sampleStore newUser).user = newUser :=
  ⟨rfl, checkout_failure_unchanged sampleStore newUser ⟨400, "Address not set"⟩ rfl⟩

/-- C3: `checkout` runs four checks in order and throws the error of the first
one that fails: no cart gives 404 "User does not have a cart"; an empty cart
gives 400 "Cart is empty", whatever the address and the wallet are; a non-empty
cart without an address gives 400 "Address not set", whatever the wallet is; a
total above the wallet gives 400 "Insufficient money to checkout"; when all
four checks pass the call succeeds. So the call fails exactly when one of the
checks fails. -/
theorem checkout_error_precedence (s : Store) (user : User) :
    (Cart.findOne s.carts user.email = none →
      (checkout s user).result
        = .error ⟨httpStatus.NOT_FOUND, "User does not have a cart"⟩) ∧
    (∀ cart, Cart.findOne s.carts user.email = some cart → cart.cartItems = [] →
      (checkout s user).result = .error ⟨httpStatus.BAD_REQUEST, "Cart is empty"⟩) ∧
    (∀ cart, Cart.findOne s.carts user.email = some cart → cart.cartItems ≠ [] →
      user.hasSetNonDefaultAddress = false →
      (checkout s user).result = .error ⟨httpStatus.BAD_REQUEST, "Address not set"⟩) ∧
    (∀ cart, Cart.findOne s.carts user.email = some cart → cart.cartItems ≠ [] →
      user.hasSetNonDefaultAddress = true → itemsSum cart.cartItems > user.walletMoney →
      (checkout s user).result
        = .error ⟨httpStatus.BAD_REQUEST, "Insufficient money to checkout"⟩) ∧
    (∀ cart, Cart.findOne s.carts user.email = some cart → cart.cartItems ≠ [] →
      user.hasSetNonDefaultAddress = true → itemsSum cart.cartItems ≤ user.walletMoney →
      (checkout s user).result = .ok ()) ∧
    ((∃ e, (checkout s user).result = .error e) ↔
      (Cart.findOne s.carts user.email = none ∨
        ∃ cart, Cart.findOne s.carts user.email = some cart ∧
          (cart.cartItems = [] ∨ user.hasSetNonDefaultAddress = false ∨
            itemsSum cart.cartItems > user.walletMoney))) := by
  have h1 : Cart.findOne s.carts user.email = none →
      (checkout s user).result
        = .error ⟨httpStatus.NOT_FOUND, "User does not have a cart"⟩ := by
    intro hc
    simp [checkout, hc]
  have h2 : ∀ cart, Cart.findOne s.carts user.email = some cart → cart.cartItems = [] →
      (checkout s user).result = .error ⟨httpStatus.BAD_REQUEST, "Cart is empty"⟩ := by
    intro cart hc he
    simp [checkout, hc, he]
  have h3 : ∀ cart, Cart.findOne s.carts user.email = some cart → cart.cartItems ≠ [] →
      user.hasSetNonDefaultAddress = false →
      (checkout s user).result = .error ⟨httpStatus.BAD_REQUEST, "Address not set"⟩ := by
    intro cart hc hne ha
    simp [checkout, hc, hne, ha]
  have h4 : ∀ cart, Cart.findOne s.carts user.email = some cart → cart.cartItems ≠ [] →
      user.hasSetNonDefaultAddress = true → itemsSum cart.cartItems > user.walletMoney →
      (checkout s user).result
        = .error ⟨httpStatus.BAD_REQUEST, "Insufficient money to checkout"⟩ := by
    intro cart hc hne ha hgt
    have hgt1 : user.walletMoney < itemsSum cart.cartItems := hgt
    simp [checkout, hc, hne, ha, cartTotal_eq_itemsSum, hgt1]
  have h5 : ∀ cart, Cart.findOne s.carts user.email = some cart → cart.cartItems ≠ [] →
      user.hasSetNonDefaultAddress = true → itemsSum cart.cartItems ≤ user.walletMoney →
      (checkout s user).result = .ok () := by
    intro cart hc hne ha hle
    rw [checkout_of_passing hc hne ha hle]
  refine ⟨h1, h2, h3, h4, h5, ?_⟩
  constructor
  · rintro ⟨e, he⟩
    cases hc : Cart.findOne s.carts user.email with
    | none => exact Or.inl rfl
    | some cart =>
      refine Or.inr ⟨cart, rfl, ?_⟩
      by_contra hno
      push_neg at hno
      obtain ⟨hne, ha, hle⟩ := hno
      have ha1 : user.hasSetNonDefaultAddress = true := by simpa using ha
      rw [h5 cart hc hne ha1 hle] at he
      cases he
  · rintro (hc | ⟨cart, hc, hfail⟩)
    · exact ⟨_, h1 hc⟩
    · by_cases he : cart.cartItems = []
      · exact ⟨_, h2 cart hc he⟩
      · cases ha : user.hasSetNonDefaultAddress with
        | false => exact ⟨_, h3 cart hc he ha⟩
        | true =>
          rcases hfail with h | h | h
          · exact absurd h he
          · rw [ha] at h
            cases h
          · exact ⟨_, h4 cart hc he ha h⟩

/-- Witness of C3: `newUser` has a non-empty cart of 60, no address and a
wallet of 50, and gets "Address not set"; with an empty cart instead the error
is "Cart is empty"; without any cart it is "User does not have a cart". -/
theorem checkout_error_precedence_witness :
    (checkout sampleStore newUser).result = .error ⟨400, "Address not set"⟩ ∧
    (checkout { sampleStore with carts := [{ newCart with cartItems := [] }] } newUser).result
      = .error ⟨400, "Cart is empty"⟩ ∧
    (checkout freshStore newUser).result = .error ⟨404, "User does not have a cart"⟩ :=
  ⟨(checkout_error_precedence sampleStore newUser).2.2.1 newCart (by decide) (by decide)
      (by decide),
    (checkout_error_precedence { sampleStore with carts := [{ newCart with cartItems := [] }] }
      newUser).2.1 { newCart with cartItems := [] } (by decide) (by decide),
    (checkout_error_precedence freshStore newUser).1 (by decide)⟩

/-! ## Lemmas on addProductToCart -/

theorem find?_isSome_iff_exists (items : List CartItem) (productId : String) :
    (items.find? (fun item => item.product._id == productId)).isSome = true ↔
      ∃ it ∈ items, it.product._id = productId := by
  simp [List.find?_isSome]

theorem addProductToCart_of_cart {createRejected : Bool} {s : Store} {user : User}
    {productId : String} {quantity : Int} {cart : Cart}
    (h : Cart.findOne s.carts user.email = some cart) :
    addProductToCart createRejected s user productId quantity
      = if (cart.cartItems.find? (fun item => item.product._id == productId)).isSome then
          ⟨.error ⟨httpStatus.BAD_REQUEST,
            "Product already in cart. Use the cart sidebar to update or remove product from cart"⟩,
            s⟩
        else
          match Product.findById s.products productId with
          | none => ⟨.error ⟨httpStatus.BAD_REQUEST, "Product doesn't exist in database"⟩, s⟩
          | some product =>
            ⟨.ok { cart with cartItems := cart.cartItems ++ [⟨product, quantity⟩] },
              { s with carts := (Cart.save s.carts
                  { cart with cartItems := cart.cartItems ++ [⟨product, quantity⟩] }) }⟩ := by
  simp only [addProductToCart, h]

theorem addProductToCart_of_rejected {s : Store} {user : User}
    {productId : String} {quantity : Int}
    (h : Cart.findOne s.carts user.email = none) :
    addProductToCart true s user productId quantity
      = ⟨.error ⟨httpStatus.INTERNAL_SERVER_ERROR, "Internal Server Error"⟩, s⟩ := by
  simp [addProductToCart, h, Cart.saveNew]

theorem addProductToCart_of_created {s : Store} {user : User}
    {productId : String} {quantity : Int}
    (h : Cart.findOne s.carts user.email = none) :
    addProductToCart false s user productId quantity
      = match Product.findById s.products productId with
        | none =>
          ⟨.error ⟨httpStatus.BAD_REQUEST, "Product doesn't exist in database"⟩,
            { s with carts := s.carts ++ [⟨user.email, [], PAYMENT_OPTION_DEFAULT⟩] }⟩
        | some product =>
          ⟨.ok ⟨user.email, [⟨product, quantity⟩], PAYMENT_OPTION_DEFAULT⟩,
            { s with carts := (Cart.save (s.carts ++ [⟨user.email, [], PAYMENT_OPTION_DEFAULT⟩])
                ⟨user.email, [⟨product, quantity⟩], PAYMENT_OPTION_DEFAULT⟩) }⟩ := by
  simp [addProductToCart, h, Cart.saveNew]

/-- Shape of a successful add: the product exists, the cart returned is the
cart the user had (or the new empty one) with the new item at the end, none of
the old items has the product, and the cart returned is the one stored. -/
theorem addProductToCart_ok {createRejected : Bool} {s : Store} {user : User}
    {productId : String} {quantity : Int} {c1 : Cart}
    (h : (addProductToCart createRejected s user productId quantity).result = .ok c1) :
    ∃ product items,
      Product.findById s.products productId = some product ∧
      ((∃ cart, Cart.findOne s.carts user.email = some cart ∧ cart.cartItems = items) ∨
        (Cart.findOne s.carts user.email = none ∧ createRejected = false ∧ items = [])) ∧
      (∀ it ∈ items, it.product._id ≠ productId) ∧
      c1.email = user.email ∧
      c1.cartItems = items ++ [⟨product, quantity⟩] ∧
      Cart.findOne (addProductToCart createRejected s user productId quantity).store.carts
        user.email = some c1 := by
  cases hc : Cart.findOne s.carts user.email with
  | some cart =>
    have hemail : cart.email = user.email := Cart.findOne_email hc
    by_cases hdup : (cart.cartItems.find? (fun item => item.product._id == productId)).isSome
    · simp [addProductToCart_of_cart hc, hdup] at h
    · cases hp : Product.findById s.products productId with
      | none => simp [addProductToCart_of_cart hc, hdup, hp] at h
      | some product =>
        have hout : addProductToCart createRejected s user productId quantity
            = ⟨.ok { cart with cartItems := cart.cartItems ++ [⟨product, quantity⟩] },
              { s with carts := (Cart.save s.carts
                  { cart with cartItems := cart.cartItems ++ [⟨product, quantity⟩] }) }⟩ := by
          rw [addProductToCart_of_cart hc]
          simp [hdup, hp]
        rw [hout] at h ⊢
        have hc1 : c1 = { cart with cartItems := cart.cartItems ++ [⟨product, quantity⟩] } := by
          injection h with h
          exact h.symm
        subst hc1
        refine ⟨product, cart.cartItems, rfl, Or.inl ⟨cart, rfl, rfl⟩, ?_, hemail, rfl, ?_⟩
        · intro it hit hid
          exact hdup ((find?_isSome_iff_exists _ _).mpr ⟨it, hit, hid⟩)
        · have h1 : Cart.findOne s.carts
              ({ cart with cartItems := cart.cartItems ++ [⟨product, quantity⟩] } : Cart).email
                = some cart := by
            simpa [hemail] using hc
          have h2 := Cart.findOne_save h1
          simpa [hemail] using h2
  | none =>
    cases createRejected with
    | true =>
      rw [addProductToCart_of_rejected hc] at h
      cases h
    | false =>
      cases hp : Product.findById s.products productId with
      | none => simp [addProductToCart_of_created hc, hp] at h
      | some product =>
        have hout : addProductToCart false s user productId quantity
            = ⟨.ok ⟨user.email, [⟨product, quantity⟩], PAYMENT_OPTION_DEFAULT⟩,
              { s with carts := (Cart.save
                  (s.carts ++ [⟨user.email, [], PAYMENT_OPTION_DEFAULT⟩])
                  ⟨user.email, [⟨product, quantity⟩], PAYMENT_OPTION_DEFAULT⟩) }⟩ := by
          rw [addProductToCart_of_created hc]
          simp [hp]
        rw [hout] at h ⊢
        have hc1 : c1 = ⟨user.email, [⟨product, quantity⟩], PAYMENT_OPTION_DEFAULT⟩ := by
          injection h with h
          exact h.symm
        subst hc1
        refine ⟨product, [], rfl, Or.inr ⟨rfl, rfl, rfl⟩, by simp, rfl, rfl, ?_⟩
        have h1 : Cart.findOne (s.carts ++ [⟨user.email, [], PAYMENT_OPTION_DEFAULT⟩])
            (⟨user.email, [], PAYMENT_OPTION_DEFAULT⟩ : Cart).email
              = some ⟨user.email, [], PAYMENT_OPTION_DEFAULT⟩ :=
          Cart.findOne_append_new (c := ⟨user.email, [], PAYMENT_OPTION_DEFAULT⟩) hc
        exact Cart.findOne_save
          (c := ⟨user.email, [⟨product, quantity⟩], PAYMENT_OPTION_DEFAULT⟩) h1

/-! ## addProductToCart -/

/-- C4, as stated, fails: for a user without a cart whose new cart document is
rejected by the store, an add of an unknown product throws 500 "Internal Server
Error", not a 400. -/
theorem addProductToCart_unknown_product_counterexample :
    ¬ (∀ (createRejected : Bool) (s : Store) (user : User) (productId : String)
        (quantity : Int), Product.findById s.products productId = none →
        ∃ msg, (addProductToCart createRejected s user productId quantity).result
          = .error ⟨httpStatus.BAD_REQUEST, msg⟩) := by
  intro h
  obtain ⟨msg, hmsg⟩ := h true freshStore crioUser "5f71c1ca04c69a5874e9fd47" 1 (by decide)
  have h500 : (addProductToCart true freshStore crioUser "5f71c1ca04c69a5874e9fd47" 1).result
      = .error ⟨500, "Internal Server Error"⟩ := rfl
  rw [h500] at hmsg
  injection hmsg with h1
  injection h1 with h2
  exact absurd h2 (by decide)

/-- C4, amended: an add of a product that the lookup does not find always
fails. It fails with 400 whenever the user already has a cart (empty,
populated, or holding an item with that product id) or the new cart document
is accepted by the store; when the user has no cart and the new cart document
is rejected, it fails with 500 "Internal Server Error". -/
theorem addProductToCart_unknown_product (createRejected : Bool) (s : Store) (user : User)
    (productId : String) (quantity : Int)
    (hprod : Product.findById s.products productId = none) :
    (Cart.findOne s.carts user.email ≠ none ∨ createRejected = false →
      ∃ msg, (addProductToCart createRejected s user productId quantity).result
        = .error ⟨httpStatus.BAD_REQUEST, msg⟩) ∧
    (Cart.findOne s.carts user.email = none ∧ createRejected = true →
      (addProductToCart createRejected s user productId quantity).result
        = .error ⟨httpStatus.INTERNAL_SERVER_ERROR, "Internal Server Error"⟩) := by
  constructor
  · intro h
    cases hc : Cart.findOne s.carts user.email with
    | some cart =>
      rw [addProductToCart_of_cart hc]
      by_cases hdup : (cart.cartItems.find? (fun item => item.product._id == productId)).isSome
      · exact ⟨"Product already in cart. Use the cart sidebar to update or remove product from cart",
          by simp [hdup]⟩
      · exact ⟨"Product doesn't exist in database", by simp [hdup, hprod]⟩
    | none =>
      rcases h with h | h
      · exact absurd hc h
      · subst h
        rw [addProductToCart_of_created hc]
        exact ⟨"Product doesn't exist in database", by simp [hprod]⟩
  · rintro ⟨hc, hrej⟩
    subst hrej
    rw [addProductToCart_of_rejected hc]

/-- Witness of C4, amended: an unknown product id is refused with 400 for the
user who holds a cart and for the user who gets a new one. -/
theorem addProductToCart_unknown_product_witness :
    Product.findById sampleStore.products "5f71c1ca04c69a5874e9fd47" = none ∧
    (∃ msg, (addProductToCart false sampleStore crioUser "5f71c1ca04c69a5874e9fd47" 1).result
      = .error ⟨httpStatus.BAD_REQUEST, msg⟩) ∧
    (∃ msg, (addProductToCart false freshStore crioUser "5f71c1ca04c69a5874e9fd47" 1).result
      = .error ⟨httpStatus.BAD_REQUEST, msg⟩) ∧
    (addProductToCart true freshStore crioUser "5f71c1ca04c69a5874e9fd47" 1).result
      = .error ⟨httpStatus.INTERNAL_SERVER_ERROR, "Internal Server Error"⟩ :=
  ⟨by decide,
    (addProductToCart_unknown_product false sampleStore crioUser "5f71c1ca04c69a5874e9fd47" 1
      (by decide)).1 (Or.inl (by decide)),
    (addProductToCart_unknown_product false freshStore crioUser "5f71c1ca04c69a5874e9fd47" 1
      (by decide)).1 (Or.inr rfl),
    (addProductToCart_unknown_product true freshStore crioUser "5f71c1ca04c69a5874e9fd47" 1
      (by decide)).2 ⟨by decide, rfl⟩⟩

/-- C5, as stated, fails: a user without a cart who adds an unknown product
gets an error, and the store then holds a cart for that user. -/
theorem addProductToCart_failed_add_counterexample :
    ¬ (∀ (createRejected : Bool) (s : Store) (user : User) (productId : String)
        (quantity : Int) (e : ApiError), Cart.findOne s.carts user.email = none →
        (addProductToCart createRejected s user productId quantity).result = .error e →
        Cart.findOne (addProductToCart createRejected s user productId quantity).store.carts
          user.email = none) := by
  intro h
  have h1 := h false freshStore crioUser "5f71c1ca04c69a5874e9fd47" 1
    ⟨400, "Product doesn't exist in database"⟩ (by decide) rfl
  have h2 : Cart.findOne
      (addProductToCart false freshStore crioUser "5f71c1ca04c69a5874e9fd47" 1).store.carts
      crioUser.email = some ⟨"crio-user@gmail.com", [], PAYMENT_OPTION_DEFAULT⟩ := by decide
  rw [h2] at h1
  cases h1

/-- C5, amended: when a user without a cart calls add and the call fails, the
carts that were stored are all unchanged, and for that user the store holds
either no cart (the new cart document was rejected, error 500) or one new cart
with no items (the product is unknown, error 400 "Product doesn't exist in
database"); products and users are unchanged. -/
theorem addProductToCart_failed_add (createRejected : Bool) (s : Store) (user : User)
    (productId : String) (quantity : Int) (e : ApiError)
    (hcart : Cart.findOne s.carts user.email = none)
    (hfail : (addProductToCart createRejected s user productId quantity).result = .error e) :
    (createRejected = true ∧
      e = ⟨httpStatus.INTERNAL_SERVER_ERROR, "Internal Server Error"⟩ ∧
      (addProductToCart createRejected s user productId quantity).store = s) ∨
    (createRejected = false ∧
      Product.findById s.products productId = none ∧
      e = ⟨httpStatus.BAD_REQUEST, "Product doesn't exist in database"⟩ ∧
      (addProductToCart createRejected s user productId quantity).store
        = { s with carts := s.carts ++ [⟨user.email, [], PAYMENT_OPTION_DEFAULT⟩] } ∧
      Cart.findOne (addProductToCart createRejected s user productId quantity).store.carts
        user.email = some ⟨user.email, [], PAYMENT_OPTION_DEFAULT⟩) := by
  cases createRejected with
  | true =>
    rw [addProductToCart_of_rejected hcart] at hfail ⊢
    injection hfail with h1
    exact Or.inl ⟨rfl, h1.symm, rfl⟩
  | false =>
    cases hp : Product.findById s.products productId with
    | some product => simp [addProductToCart_of_created hcart, hp] at hfail
    | none =>
      have hout : addProductToCart false s user productId quantity
          = ⟨.error ⟨httpStatus.BAD_REQUEST, "Product doesn't exist in database"⟩,
            { s with carts := s.carts ++ [⟨user.email, [], PAYMENT_OPTION_DEFAULT⟩] }⟩ := by
        rw [addProductToCart_of_created hcart]
        simp [hp]
      rw [hout] at hfail ⊢
      injection hfail with h1
      exact Or.inr ⟨rfl, rfl, h1.symm, rfl,
        Cart.findOne_append_new (c := ⟨user.email, [], PAYMENT_OPTION_DEFAULT⟩) hcart⟩

/-- Witness of C5, amended, on the store without carts. -/
theorem addProductToCart_failed_add_witness :
    (addProductToCart false freshStore crioUser "5f71c1ca04c69a5874e9fd47" 1).store.carts
      = [⟨"crio-user@gmail.com", [], PAYMENT_OPTION_DEFAULT⟩] := by
  have h := addProductToCart_failed_add false freshStore crioUser "5f71c1ca04c69a5874e9fd47" 1
    ⟨400, "Product doesn't exist in database"⟩ (by decide) rfl
  rcases h with ⟨h1, _⟩ | ⟨_, _, _, h4, _⟩
  · cases h1
  · rw [h4]
    rfl

/-- C6: when the lookup of `productId` returns a product and the item sequence
`oldItems` of the user's cart (or of the empty cart created for a user who has
none) holds no item with that product id, `addProductToCart` succeeds; the cart
it returns belongs to the user, is the cart stored for the user afterwards, and
its item sequence is `oldItems` followed by the new item, so every old item
keeps its position, product and quantity. -/
theorem addProductToCart_success (createRejected : Bool) (s : Store) (user : User)
    (productId : String) (quantity : Int) (product : Product) (oldItems : List CartItem)
    (hprod : Product.findById s.products productId = some product)
    (hcart : (∃ cart, Cart.findOne s.carts user.email = some cart ∧ cart.cartItems = oldItems) ∨
      (Cart.findOne s.carts user.email = none ∧ createRejected = false ∧ oldItems = []))
    (hfresh : ∀ it ∈ oldItems, it.product._id ≠ productId) :
    ∃ cart1,
      (addProductToCart createRejected s user productId quantity).result = .ok cart1 ∧
      cart1.email = user.email ∧
      cart1.cartItems = oldItems ++ [{ product := product, quantity := quantity }] ∧
      (∀ i, i < oldItems.length → cart1.cartItems[i]? = oldItems[i]?) ∧
      Cart.findOne (addProductToCart createRejected s user productId quantity).store.carts
        user.email = some cart1 := by
  have hres : ∃ cart1,
      (addProductToCart createRejected s user productId quantity).result = .ok cart1 := by
    rcases hcart with ⟨cart, hc, hitems⟩ | ⟨hc, hrej, _⟩
    · have hdup : ¬ (cart.cartItems.find?
          (fun item => item.product._id == productId)).isSome = true := by
        intro h
        obtain ⟨it, hit, hid⟩ := (find?_isSome_iff_exists _ _).mp h
        exact hfresh it (hitems ▸ hit) hid
      rw [addProductToCart_of_cart hc]
      exact ⟨{ cart with cartItems := cart.cartItems ++ [⟨product, quantity⟩] },
        by simp [hdup, hprod]⟩
    · subst hrej
      rw [addProductToCart_of_created hc]
      exact ⟨⟨user.email, [⟨product, quantity⟩], PAYMENT_OPTION_DEFAULT⟩, by simp [hprod]⟩
  obtain ⟨cart1, hok⟩ := hres
  obtain ⟨product1, items, hp1, hitems, _, hemail, hci, hstored⟩ := addProductToCart_ok hok
  have hpe : product1 = product := by
    rw [hprod] at hp1
    exact (Option.some.inj hp1).symm
  have hie : items = oldItems := by
    rcases hcart with ⟨cart, hc, hold⟩ | ⟨hc, _, hold⟩
    · rcases hitems with ⟨cart0, hc0, h0⟩ | ⟨hc0, _, _⟩
      · rw [hc] at hc0
        cases hc0
        exact h0.symm.trans hold
      · rw [hc] at hc0
        cases hc0
    · rcases hitems with ⟨cart0, hc0, _⟩ | ⟨_, _, h0⟩
      · rw [hc] at hc0
        cases hc0
      · exact h0.trans hold.symm
  subst hpe
  subst hie
  refine ⟨cart1, hok, hemail, hci, ?_, hstored⟩
  intro i hi
  rw [hci, List.getElem?_append_left hi]

/-- Witness of C6: `newUser` adds a ball next to the bats, and `crioUser`, on
the store without carts, gets a new cart that holds the ball. -/
theorem addProductToCart_success_witness :
    (∃ cart1, (addProductToCart false sampleStore newUser ball._id 3).result = .ok cart1 ∧
      cart1.cartItems = newCart.cartItems ++ [{ product := ball, quantity := 3 }]) ∧
    (∃ cart1, (addProductToCart false freshStore crioUser ball._id 3).result = .ok cart1 ∧
      cart1.cartItems = [{ product := ball, quantity := 3 }]) := by
  obtain ⟨c, h1, _, h3, _⟩ := addProductToCart_success false sampleStore newUser ball._id 3
    ball newCart.cartItems (by decide) (Or.inl ⟨newCart, by decide, rfl⟩) (by decide)
  obtain ⟨d, g1, _, g3, _⟩ := addProductToCart_success false freshStore crioUser ball._id 3
    ball [] (by decide) (Or.inr ⟨by decide, rfl, rfl⟩) (by decide)
  exact ⟨⟨c, h1, h3⟩, ⟨d, g1, g3⟩⟩

/-- C7: after a successful `addProductToCart(user, p, q1)`, a second
`addProductToCart(user, p, q2)` fails with 400 "Product already in cart. Use
the cart sidebar to update or remove product from cart" and leaves the store,
hence the item sequence, as the first call left it; when the user started with
no cart or with an empty cart, the cart holds exactly one item after both
calls. -/
theorem addProductToCart_duplicate_rejected (r1 r2 : Bool) (s : Store) (user : User)
    (p : String) (q1 q2 : Int) (cart1 : Cart)
    (hfirst : (addProductToCart r1 s user p q1).result = .ok cart1) :
    (addProductToCart r2 (addProductToCart r1 s user p q1).store user p q2).result
      = .error ⟨httpStatus.BAD_REQUEST,
          "Product already in cart. Use the cart sidebar to update or remove product from cart"⟩ ∧
    (addProductToCart r2 (addProductToCart r1 s user p q1).store user p q2).store
      = (addProductToCart r1 s user p q1).store ∧
    Cart.findOne
      (addProductToCart r2 (addProductToCart r1 s user p q1).store user p q2).store.carts
      user.email = some cart1 ∧
    ((Cart.findOne s.carts user.email = none ∨
        ∃ cart, Cart.findOne s.carts user.email = some cart ∧ cart.cartItems = []) →
      cart1.cartItems.length = 1) := by
  obtain ⟨product, items, hp, hitems, _, _, hci, hstored⟩ := addProductToCart_ok hfirst
  have hid : product._id = p := Product.findById_id hp
  have hdup : (cart1.cartItems.find? (fun item => item.product._id == p)).isSome = true := by
    rw [find?_isSome_iff_exists]
    exact ⟨⟨product, q1⟩, by simp [hci], hid⟩
  have hsecond := @addProductToCart_of_cart r2 _ user p q2 cart1 hstored
  rw [hsecond]
  simp only [hdup, if_true]
  refine ⟨trivial, trivial, hstored, ?_⟩
  intro hstart
  have hnil : items = [] := by
    rcases hitems with ⟨cart0, hc0, h0⟩ | ⟨_, _, h0⟩
    · rcases hstart with hn | ⟨cart, hc, he⟩
      · rw [hn] at hc0
        cases hc0
      · rw [hc] at hc0
        cases hc0
        exact h0.symm.trans he
    · exact h0
  simp [hci, hnil]

/-- Witness of C7: `crioUser` adds the ball twice to a store without carts. -/
theorem addProductToCart_duplicate_rejected_witness :
    (addProductToCart false freshStore crioUser ball._id 2).result
      = .ok ⟨crioUser.email, [⟨ball, 2⟩], PAYMENT_OPTION_DEFAULT⟩ ∧
    (addProductToCart false (addProductToCart false freshStore crioUser ball._id 2).store
        crioUser ball._id 5).result
      = .error ⟨httpStatus.BAD_REQUEST,
          "Product already in cart. Use the cart sidebar to update or remove product from cart"⟩ :=
  ⟨rfl, (addProductToCart_duplicate_rejected false false freshStore crioUser ball._id 2 5
    ⟨crioUser.email, [⟨ball, 2⟩], PAYMENT_OPTION_DEFAULT⟩ rfl).1⟩

/-! ## Lemmas on updateProductInCart and deleteProductFromCart -/

/-- Shape of a successful update: the user has a cart, the product exists, the
cart splits at the first item with the product id, and the cart returned and
stored is the old one with the quantity of that item replaced. -/
theorem updateProductInCart_ok {s : Store} {user : User} {productId : String}
    {quantity : Int} {c1 : Cart}
    (h : (updateProductInCart s user productId quantity).result = .ok c1) :
    ∃ cart l1 x l2,
      Cart.findOne s.carts user.email = some cart ∧
      (∃ product, Product.findById s.products productId = some product) ∧
      cart.cartItems = l1 ++ x :: l2 ∧
      x.product._id = productId ∧
      (∀ y ∈ l1, y.product._id ≠ productId) ∧
      c1 = { cart with cartItems := l1 ++ { product := x.product, quantity := quantity } :: l2 } ∧
      (updateProductInCart s user productId quantity).store
        = { s with carts := Cart.save s.carts c1 } := by
  cases hc : Cart.findOne s.carts user.email with
  | none => simp [updateProductInCart, hc] at h
  | some cart =>
    cases hp : Product.findById s.products productId with
    | none => simp [updateProductInCart, hc, hp] at h
    | some product =>
      by_cases hidx : findIndex (fun it => it.product._id == productId) cart.cartItems < 0
      · simp [updateProductInCart, hc, hp, hidx] at h
      · obtain ⟨l1, x, l2, hxs, hx, hl1, hlen⟩ := findIndex_split _ _ hidx
        have hset : setQuantity cart.cartItems
            (findIndex (fun it => it.product._id == productId) cart.cartItems).toNat quantity
              = l1 ++ { product := x.product, quantity := quantity } :: l2 := by
          rw [hlen, hxs]
          exact setQuantity_append_cons l1 x l2 quantity
        have hout : updateProductInCart s user productId quantity
            = ⟨.ok { cart with
                  cartItems := l1 ++ { product := x.product, quantity := quantity } :: l2 },
                { s with carts := (Cart.save s.carts { cart with
                  cartItems := l1 ++ { product := x.product, quantity := quantity } :: l2 }) }⟩ := by
          simp only [updateProductInCart, hc, hp, hidx, if_false, hset]
        rw [hout] at h ⊢
        have hc1 : c1 = { cart with
            cartItems := l1 ++ { product := x.product, quantity := quantity } :: l2 } := by
          injection h with h
          exact h.symm
        subst hc1
        refine ⟨cart, l1, x, l2, rfl, ⟨product, rfl⟩, hxs, by simpa using hx, ?_, rfl, rfl⟩
        intro y hy
        simpa using hl1 y hy

theorem updateProductInCart_error {s : Store} {user : User} {productId : String}
    {quantity : Int} {e : ApiError}
    (h : (updateProductInCart s user productId quantity).result = .error e) :
    (updateProductInCart s user productId quantity).store = s := by
  cases hc : Cart.findOne s.carts user.email with
  | none => simp [updateProductInCart, hc]
  | some cart =>
    cases hp : Product.findById s.products productId with
    | none => simp [updateProductInCart, hc, hp]
    | some product =>
      by_cases hidx : findIndex (fun it => it.product._id == productId) cart.cartItems < 0
      · simp [updateProductInCart, hc, hp, hidx]
      · simp [updateProductInCart, hc, hp, hidx] at h

/-- Shape of a successful delete: the user has a cart, the cart splits at the
first item with the product id, and the cart returned and stored is the old
one without that item. -/
theorem deleteProductFromCart_ok {s : Store} {user : User} {productId : String} {c1 : Cart}
    (h : (deleteProductFromCart s user productId).result = .ok c1) :
    ∃ cart l1 x l2,
      Cart.findOne s.carts user.email = some cart ∧
      cart.cartItems = l1 ++ x :: l2 ∧
      x.product._id = productId ∧
      (∀ y ∈ l1, y.product._id ≠ productId) ∧
      c1 = { cart with cartItems := l1 ++ l2 } ∧
      (deleteProductFromCart s user productId).store
        = { s with carts := Cart.save s.carts c1 } := by
  cases hc : Cart.findOne s.carts user.email with
  | none => simp [deleteProductFromCart, hc] at h
  | some cart =>
    by_cases hidx : findIndex (fun it => it.product._id == productId) cart.cartItems < 0
    · simp [deleteProductFromCart, hc, hidx] at h
    · obtain ⟨l1, x, l2, hxs, hx, hl1, hlen⟩ := findIndex_split _ _ hidx
      have herase : cart.cartItems.eraseIdx
          (findIndex (fun it => it.product._id == productId) cart.cartItems).toNat
            = l1 ++ l2 := by
        rw [hlen, hxs]
        exact eraseIdx_append_cons l1 x l2
      have hout : deleteProductFromCart s user productId
          = ⟨.ok { cart with cartItems := l1 ++ l2 },
              { s with carts := (Cart.save s.carts { cart with cartItems := l1 ++ l2 }) }⟩ := by
        simp only [deleteProductFromCart, hc, hidx, if_false, herase]
      rw [hout] at h ⊢
      have hc1 : c1 = { cart with cartItems := l1 ++ l2 } := by
        injection h with h
        exact h.symm
      subst hc1
      refine ⟨cart, l1, x, l2, rfl, hxs, by simpa using hx, ?_, rfl, rfl⟩
      intro y hy
      simpa using hl1 y hy

theorem deleteProductFromCart_error {s : Store} {user : User} {productId : String}
    {e : ApiError} (h : (deleteProductFromCart s user productId).result = .error e) :
    (deleteProductFromCart s user productId).store = s := by
  cases hc : Cart.findOne s.carts user.email with
  | none => simp [deleteProductFromCart, hc]
  | some cart =>
    by_cases hidx : findIndex (fun it => it.product._id == productId) cart.cartItems < 0
    · simp [deleteProductFromCart, hc, hidx]
    · simp [deleteProductFromCart, hc, hidx] at h

/-! ## Uniqueness of products within a cart -/

theorem UniqueProducts_append_one {items : List CartItem} {product : Product} (quantity : Int)
    (h : UniqueProducts items) (hfresh : ∀ it ∈ items, it.product._id ≠ product._id) :
    UniqueProducts (items ++ [⟨product, quantity⟩]) := by
  unfold UniqueProducts at h ⊢
  rw [List.map_append, List.nodup_append]
  refine ⟨h, by simp, ?_⟩
  intro a ha hb
  obtain ⟨it, hit, rfl⟩ := List.mem_map.mp ha
  simp only [List.map_cons, List.map_nil, List.mem_singleton] at hb
  exact hfresh it hit hb

theorem UniqueProducts_setQuantity {l1 l2 : List CartItem} {x : CartItem} (quantity : Int)
    (h : UniqueProducts (l1 ++ x :: l2)) :
    UniqueProducts (l1 ++ { product := x.product, quantity := quantity } :: l2) := by
  unfold UniqueProducts at h ⊢
  simpa using h

theorem UniqueProducts_erase {l1 l2 : List CartItem} {x : CartItem}
    (h : UniqueProducts (l1 ++ x :: l2)) : UniqueProducts (l1 ++ l2) := by
  unfold UniqueProducts at h ⊢
  have hsub : List.Sublist (l1 ++ l2) (l1 ++ x :: l2) :=
    List.Sublist.append_left (List.sublist_cons_self x l2) l1
  exact List.Nodup.sublist (hsub.map _) h

theorem CartsUnique_save {s : Store} {c : Cart} (h : CartsUnique s)
    (hc : UniqueProducts c.cartItems) :
    ∀ x ∈ Cart.save s.carts c, UniqueProducts x.cartItems := by
  intro x hx
  rcases Cart.mem_save hx with hx | hx
  · exact h x hx
  · exact hx ▸ hc

theorem getCartByUser_store (s : Store) (user : User) : (getCartByUser s user).store = s := by
  cases hc : Cart.findOne s.carts user.email <;> simp [getCartByUser, hc]

theorem addProductToCart_unique {createRejected : Bool} {s : Store} {user : User}
    {productId : String} {quantity : Int} (h : CartsUnique s) :
    CartsUnique (addProductToCart createRejected s user productId quantity).store := by
  cases hc : Cart.findOne s.carts user.email with
  | some cart =>
    rw [addProductToCart_of_cart hc]
    by_cases hdup : (cart.cartItems.find? (fun item => item.product._id == productId)).isSome
    · simpa [hdup] using h
    · cases hp : Product.findById s.products productId with
      | none => simpa [hdup, hp] using h
      | some product =>
        simp only [hdup, if_false, Bool.false_eq_true]
        have hid : product._id = productId := Product.findById_id hp
        apply CartsUnique_save h
        apply UniqueProducts_append_one quantity (h cart (Cart.findOne_mem hc))
        intro it hit heq
        exact hdup ((find?_isSome_iff_exists _ _).mpr ⟨it, hit, heq.trans hid⟩)
  | none =>
    cases createRejected with
    | true =>
      rw [addProductToCart_of_rejected hc]
      exact h
    | false =>
      rw [addProductToCart_of_created hc]
      have hnew : CartsUnique
          { s with carts := s.carts ++ [⟨user.email, [], PAYMENT_OPTION_DEFAULT⟩] } := by
        intro x hx
        rcases List.mem_append.mp hx with hx | hx
        · exact h x hx
        · rw [List.mem_singleton.mp hx]
          exact List.nodup_nil
      cases hp : Product.findById s.products productId with
      | none => exact hnew
      | some product =>
        apply CartsUnique_save hnew
        exact @UniqueProducts_append_one [] product quantity List.nodup_nil (by simp)

theorem updateProductInCart_unique {s : Store} {user : User} {productId : String}
    {quantity : Int} (h : CartsUnique s) :
    CartsUnique (updateProductInCart s user productId quantity).store := by
  cases hr : (updateProductInCart s user productId quantity).result with
  | error e =>
    rw [updateProductInCart_error hr]
    exact h
  | ok c1 =>
    obtain ⟨cart, l1, x, l2, hc, _, hxs, _, _, hc1, hstore⟩ := updateProductInCart_ok hr
    rw [hstore]
    apply CartsUnique_save h
    rw [hc1]
    exact UniqueProducts_setQuantity quantity (hxs ▸ h cart (Cart.findOne_mem hc))

theorem deleteProductFromCart_unique {s : Store} {user : User} {productId : String}
    (h : CartsUnique s) : CartsUnique (deleteProductFromCart s user productId).store := by
  cases hr : (deleteProductFromCart s user productId).result with
  | error e =>
    rw [deleteProductFromCart_error hr]
    exact h
  | ok c1 =>
    obtain ⟨cart, l1, x, l2, hc, hxs, _, _, hc1, hstore⟩ := deleteProductFromCart_ok hr
    rw [hstore]
    apply CartsUnique_save h
    rw [hc1]
    exact UniqueProducts_erase (x := x) (hxs ▸ h cart (Cart.findOne_mem hc))

theorem checkout_carts (s : Store) (user : User) :
    (checkout s user).store.carts = s.carts ∨
    ∃ cart : Cart, (checkout s user).store.carts
      = Cart.save s.carts { cart with cartItems := [] } := by
  cases hc : Cart.findOne s.carts user.email with
  | none => simp [checkout, hc]
  | some cart =>
    simp only [checkout, hc]
    split_ifs
    · exact Or.inl rfl
    · exact Or.inl rfl
    · exact Or.inl rfl
    · exact Or.inr ⟨cart, rfl⟩

theorem checkout_unique {s : Store} {user : User} (h : CartsUnique s) :
    CartsUnique (checkout s user).store := by
  rcases checkout_carts s user with hc | ⟨cart, hc⟩
  · intro x hx
    rw [hc] at hx
    exact h x hx
  · intro x hx
    rw [hc] at hx
    exact CartsUnique_save (c := { cart with cartItems := [] }) h List.nodup_nil x hx

theorem Call.run_unique {s : Store} (call : Call) (h : CartsUnique s) :
    CartsUnique (call.run s) := by
  cases call with
  | getCartByUser user => simpa [Call.run, getCartByUser_store] using h
  | addProductToCart r user productId quantity => exact addProductToCart_unique h
  | updateProductInCart user productId quantity => exact updateProductInCart_unique h
  | deleteProductFromCart user productId => exact deleteProductFromCart_unique h
  | checkout user => exact checkout_unique h

theorem runCalls_unique {s : Store} (calls : List Call) (h : CartsUnique s) :
    CartsUnique (runCalls s calls) := by
  induction calls generalizing s with
  | nil => exact h
  | cons call calls ih => exact ih (Call.run_unique call h)

/-- C8: the predicate "within each cart no two items have the same product
identifier" is preserved by `getCartByUser`, `addProductToCart`,
`updateProductInCart`, `deleteProductFromCart` and `checkout`, whether the call
succeeds or fails; hence it holds after every sequence of calls that starts
from a store without carts. -/
theorem cartsUnique_invariant :
    (∀ s user, CartsUnique s → CartsUnique (getCartByUser s user).store) ∧
    (∀ createRejected s user productId quantity, CartsUnique s →
      CartsUnique (addProductToCart createRejected s user productId quantity).store) ∧
    (∀ s user productId quantity, CartsUnique s →
      CartsUnique (updateProductInCart s user productId quantity).store) ∧
    (∀ s user productId, CartsUnique s →
      CartsUnique (deleteProductFromCart s user productId).store) ∧
    (∀ s user, CartsUnique s → CartsUnique (checkout s user).store) ∧
    (∀ products users calls,
      CartsUnique (runCalls { carts := [], products := products, users := users } calls)) := by
  refine ⟨?_, ?_, ?_, ?_, ?_, ?_⟩
  · intro s user h
    rw [getCartByUser_store]
    exact h
  · intro r s user productId quantity h
    exact addProductToCart_unique h
  · intro s user productId quantity h
    exact updateProductInCart_unique h
  · intro s user productId h
    exact deleteProductFromCart_unique h
  · intro s user h
    exact checkout_unique h
  · intro products users calls
    apply runCalls_unique
    intro c hc
    cases hc

/-- Witness of C8: the sample store has unique products per cart, and so has
the store after `newUser` added a ball, changed its quantity, and deleted the
bats. -/
theorem cartsUnique_invariant_witness :
    CartsUnique sampleStore ∧
    CartsUnique (addProductToCart false sampleStore newUser ball._id 3).store ∧
    CartsUnique (updateProductInCart sampleStore newUser bat._id 7).store ∧
    CartsUnique (deleteProductFromCart sampleStore newUser bat._id).store :=
  ⟨by decide,
    cartsUnique_invariant.2.1 false sampleStore newUser ball._id 3 (by decide),
    cartsUnique_invariant.2.2.1 sampleStore newUser bat._id 7 (by decide),
    cartsUnique_invariant.2.2.2.1 sampleStore newUser bat._id (by decide)⟩

/-! ## deleteProductFromCart and updateProductInCart -/

theorem set_append_cons {α : Type} (l1 : List α) (x y : α) (l2 : List α) :
    (l1 ++ x :: l2).set l1.length y = l1 ++ y :: l2 := by
  induction l1 with
  | nil => rfl
  | cons a l1 ih => simp [ih]

/-- C9: when the user's cart holds an item with product id `p`,
`deleteProductFromCart(user, p)` succeeds. The old item sequence splits as
`l1 ++ x :: l2` where `x` is the first item with product id `p`, and the cart
returned and stored has the items `l1 ++ l2`: one element fewer, all other
items unchanged and in the same order. When the old cart has unique products,
no item with product id `p` remains. -/
theorem deleteProductFromCart_removes_first (s : Store) (user : User) (p : String)
    (cart : Cart)
    (hcart : Cart.findOne s.carts user.email = some cart)
    (hin : ∃ it ∈ cart.cartItems, it.product._id = p) :
    ∃ l1 x l2,
      cart.cartItems = l1 ++ x :: l2 ∧
      x.product._id = p ∧
      (∀ y ∈ l1, y.product._id ≠ p) ∧
      (deleteProductFromCart s user p).result = .ok { cart with cartItems := l1 ++ l2 } ∧
      Cart.findOne (deleteProductFromCart s user p).store.carts user.email
        = some { cart with cartItems := l1 ++ l2 } ∧
      (l1 ++ l2).length = cart.cartItems.length - 1 ∧
      (UniqueProducts cart.cartItems → ∀ y ∈ l1 ++ l2, y.product._id ≠ p) := by
  have hidx : ¬ findIndex (fun it => it.product._id == p) cart.cartItems < 0 := by
    intro hneg
    obtain ⟨it, hit, hid⟩ := hin
    have := (findIndex_neg_iff _ _).mp hneg it hit
    simp [hid] at this
  have hok : ∃ c1, (deleteProductFromCart s user p).result = .ok c1 := by
    simp only [deleteProductFromCart, hcart, hidx, if_false]
    exact ⟨_, rfl⟩
  obtain ⟨c1, hc1⟩ := hok
  obtain ⟨cart0, l1, x, l2, hc0, hxs, hx, hl1, hshape, hstore⟩ := deleteProductFromCart_ok hc1
  rw [hcart] at hc0
  cases hc0
  have hemail : cart.email = user.email := Cart.findOne_email hcart
  refine ⟨l1, x, l2, hxs, hx, hl1, ?_, ?_, ?_, ?_⟩
  · rw [hc1, hshape]
  · rw [hstore, hshape]
    have h1 : Cart.findOne s.carts ({ cart with cartItems := l1 ++ l2 } : Cart).email
        = some cart := by
      simpa [hemail] using hcart
    have h2 := Cart.findOne_save h1
    simpa [hemail] using h2
  · rw [hxs]
    simp
  · intro huniq y hy hyp
    unfold UniqueProducts at huniq
    rw [hxs, List.map_append, List.map_cons, List.nodup_middle, List.nodup_cons] at huniq
    apply huniq.1
    rw [← List.map_append, hx, ← hyp]
    exact List.mem_map_of_mem _ hy

/-- Witness of C9: `crioUser` deletes the ball; the bat stays. -/
theorem deleteProductFromCart_removes_first_witness :
    Cart.findOne sampleStore.carts crioUser.email = some crioCart ∧
    ∃ l1 x l2,
      crioCart.cartItems = l1 ++ x :: l2 ∧
      x.product._id = ball._id ∧
      (deleteProductFromCart sampleStore crioUser ball._id).result
        = .ok { crioCart with cartItems := l1 ++ l2 } ∧
      (l1 ++ l2).length = 1 := by
  obtain ⟨l1, x, l2, hxs, hx, _, hres, _, hlen, _⟩ :=
    deleteProductFromCart_removes_first sampleStore crioUser ball._id crioCart (by decide)
      ⟨⟨ball, 2⟩, by decide, rfl⟩
  exact ⟨by decide, l1, x, l2, hxs, hx, hres, hlen⟩

/-- C10: when `updateProductInCart(user, p, q)` succeeds, the old item sequence
of the user's cart splits as `l1 ++ x :: l2` where `x` is the first item with
product id `p`, and the cart returned and stored has the items
`l1 ++ (x.product, q) :: l2`: the length is the same, the item at that index
has the same product and quantity `q`, and the item at every other index is
unchanged. -/
theorem updateProductInCart_frame (s : Store) (user : User) (p : String) (q : Int)
    (cart1 : Cart)
    (h : (updateProductInCart s user p q).result = .ok cart1) :
    ∃ cart l1 x l2,
      Cart.findOne s.carts user.email = some cart ∧
      cart.cartItems = l1 ++ x :: l2 ∧
      x.product._id = p ∧
      (∀ y ∈ l1, y.product._id ≠ p) ∧
      cart1.cartItems = l1 ++ { product := x.product, quantity := q } :: l2 ∧
      cart1.cartItems.length = cart.cartItems.length ∧
      cart1.cartItems[l1.length]? = some { product := x.product, quantity := q } ∧
      (∀ i, i ≠ l1.length → cart1.cartItems[i]? = cart.cartItems[i]?) ∧
      cart1.email = cart.email ∧
      Cart.findOne (updateProductInCart s user p q).store.carts user.email = some cart1 := by
  obtain ⟨cart, l1, x, l2, hc, _, hxs, hx, hl1, hshape, hstore⟩ := updateProductInCart_ok h
  have hemail : cart.email = user.email := Cart.findOne_email hc
  have hitems : cart1.cartItems = l1 ++ { product := x.product, quantity := q } :: l2 := by
    rw [hshape]
  have hasset : cart1.cartItems
      = cart.cartItems.set l1.length { product := x.product, quantity := q } := by
    rw [hitems, hxs, set_append_cons]
  refine ⟨cart, l1, x, l2, hc, hxs, hx, hl1, hitems, ?_, ?_, ?_, ?_, ?_⟩
  · rw [hasset, List.length_set]
  · rw [hasset, List.getElem?_set_self]
    rw [hxs]
    simp
  · intro i hi
    rw [hasset, List.getElem?_set_ne (Ne.symm hi)]
  · rw [hshape]
  · rw [hstore]
    have h1 : Cart.findOne s.carts cart1.email = some cart := by
      rw [hshape]
      simpa [hemail] using hc
    have h2 := Cart.findOne_save h1
    have he1 : cart1.email = user.email := by
      rw [hshape]
      exact hemail
    rw [he1] at h2
    exact h2

/-- Witness of C10: `crioUser` sets the quantity of the bat to 7. -/
theorem updateProductInCart_frame_witness :
    (updateProductInCart sampleStore crioUser bat._id 7).result
      = .ok { crioCart with cartItems := [⟨ball, 2⟩, ⟨bat, 7⟩] } ∧
    ∃ cart l1 x l2,
      Cart.findOne sampleStore.carts crioUser.email = some cart ∧
      cart.cartItems = l1 ++ x :: l2 ∧
      ({ crioCart with cartItems := [⟨ball, 2⟩, ⟨bat, 7⟩] } : Cart).cartItems
        = l1 ++ { product := x.product, quantity := 7 } :: l2 := by
  refine ⟨rfl, ?_⟩
  obtain ⟨cart, l1, x, l2, h1, h2, _, _, h5, _⟩ :=
    updateProductInCart_frame sampleStore crioUser bat._id 7
      { crioCart with cartItems := [⟨ball, 2⟩, ⟨bat, 7⟩] } rfl
  exact ⟨cart, l1, x, l2, h1, h2, h5⟩

/-- C11: `updateProductInCart` succeeds if and only if the user has a cart,
the lookup of `p` returns a product, and the cart holds an item with product
id `p`. Otherwise it fails with status 400 and leaves the store unchanged, with
the message of the first failing check: no cart gives "User does not have a
cart. Use POST to create cart and add a product"; a product that the lookup
does not find gives "Product doesn't exist in database", whatever the cart
holds; a cart without an item of that id gives "Product not in cart". -/
theorem updateProductInCart_classification (s : Store) (user : User) (p : String) (q : Int) :
    ((∃ cart1, (updateProductInCart s user p q).result = .ok cart1) ↔
      ∃ cart, Cart.findOne s.carts user.email = some cart ∧
        (∃ product, Product.findById s.products p = some product) ∧
        ∃ it ∈ cart.cartItems, it.product._id = p) ∧
    (Cart.findOne s.carts user.email = none →
      (updateProductInCart s user p q).result
        = .error ⟨httpStatus.BAD_REQUEST,
            "User does not have a cart. Use POST to create cart and add a product"⟩) ∧
    (∀ cart, Cart.findOne s.carts user.email = some cart →
      Product.findById s.products p = none →
      (updateProductInCart s user p q).result
        = .error ⟨httpStatus.BAD_REQUEST, "Product doesn't exist in database"⟩) ∧
    (∀ cart product, Cart.findOne s.carts user.email = some cart →
      Product.findById s.products p = some product →
      (∀ it ∈ cart.cartItems, it.product._id ≠ p) →
      (updateProductInCart s user p q).result
        = .error ⟨httpStatus.BAD_REQUEST, "Product not in cart"⟩) ∧
    (∀ e, (updateProductInCart s user p q).result = .error e →
      e.statusCode = httpStatus.BAD_REQUEST ∧ (updateProductInCart s user p q).store = s) := by
  have hnone : Cart.findOne s.carts user.email = none →
      (updateProductInCart s user p q).result
        = .error ⟨httpStatus.BAD_REQUEST,
            "User does not have a cart. Use POST to create cart and add a product"⟩ := by
    intro hc
    simp [updateProductInCart, hc]
  have hprod : ∀ cart, Cart.findOne s.carts user.email = some cart →
      Product.findById s.products p = none →
      (updateProductInCart s user p q).result
        = .error ⟨httpStatus.BAD_REQUEST, "Product doesn't exist in database"⟩ := by
    intro cart hc hp
    simp [updateProductInCart, hc, hp]
  have hitem : ∀ cart product, Cart.findOne s.carts user.email = some cart →
      Product.findById s.products p = some product →
      (∀ it ∈ cart.cartItems, it.product._id ≠ p) →
      (updateProductInCart s user p q).result
        = .error ⟨httpStatus.BAD_REQUEST, "Product not in cart"⟩ := by
    intro cart product hc hp hno
    have hidx : findIndex (fun it => it.product._id == p) cart.cartItems < 0 := by
      rw [findIndex_neg_iff]
      intro it hit
      simpa using hno it hit
    simp [updateProductInCart, hc, hp, hidx]
  refine ⟨?_, hnone, hprod, hitem, ?_⟩
  · constructor
    · rintro ⟨cart1, hok⟩
      obtain ⟨cart, l1, x, l2, hc, hp, hxs, hx, _, _, _⟩ := updateProductInCart_ok hok
      exact ⟨cart, hc, hp, x, by simp [hxs], hx⟩
    · rintro ⟨cart, hc, ⟨product, hp⟩, it, hit, hid⟩
      have hidx : ¬ findIndex (fun it => it.product._id == p) cart.cartItems < 0 := by
        intro hneg
        have := (findIndex_neg_iff _ _).mp hneg it hit
        simp [hid] at this
      simp only [updateProductInCart, hc, hp, hidx, if_false]
      exact ⟨_, rfl⟩
  · intro e he
    refine ⟨?_, updateProductInCart_error he⟩
    cases hc : Cart.findOne s.carts user.email with
    | none =>
      rw [hnone hc] at he
      injection he with he
      rw [← he]
    | some cart =>
      cases hp : Product.findById s.products p with
      | none =>
        rw [hprod cart hc hp] at he
        injection he with he
        rw [← he]
      | some product =>
        by_cases hno : ∀ it ∈ cart.cartItems, it.product._id ≠ p
        · rw [hitem cart product hc hp hno] at he
          injection he with he
          rw [← he]
        · push_neg at hno
          obtain ⟨it, hit, hid⟩ := hno
          have hidx : ¬ findIndex (fun it => it.product._id == p) cart.cartItems < 0 := by
            intro hneg
            have := (findIndex_neg_iff _ _).mp hneg it hit
            simp [hid] at this
          simp [updateProductInCart, hc, hp, hidx] at he

/-- Witness of C11 on the sample store: an unknown product id is refused as
unknown, a known product that is not in the cart is refused as not in cart, and
a user without a cart is told so. -/
theorem updateProductInCart_classification_witness :
    (updateProductInCart sampleStore newUser "5f71c1ca04c69a5874e9fd47" 2).result
      = .error ⟨400, "Product doesn't exist in database"⟩ ∧
    (updateProductInCart sampleStore newUser ball._id 2).result
      = .error ⟨400, "Product not in cart"⟩ ∧
    (updateProductInCart freshStore newUser ball._id 2).result
      = .error ⟨400, "User does not have a cart. Use POST to create cart and add a product"⟩ ∧
    (∃ cart1, (updateProductInCart sampleStore newUser bat._id 2).result = .ok cart1) :=
  ⟨(updateProductInCart_classification sampleStore newUser "5f71c1ca04c69a5874e9fd47" 2).2.2.1
      newCart (by decide) (by decide),
    (updateProductInCart_classification sampleStore newUser ball._id 2).2.2.2.1
      newCart ball (by decide) (by decide) (by decide),
    (updateProductInCart_classification freshStore newUser ball._id 2).2.1 (by decide),
    (updateProductInCart_classification sampleStore newUser bat._id 2).1.mpr
      ⟨newCart, by decide, ⟨bat, by decide⟩, ⟨bat, 4⟩, by decide, rfl⟩⟩

/-! ## Lemmas on what a call writes -/

theorem addProductToCart_users (createRejected : Bool) (s : Store) (user : User)
    (productId : String) (quantity : Int) :
    (addProductToCart createRejected s user productId quantity).store.users = s.users ∧
    (addProductToCart createRejected s user productId quantity).store.products
      = s.products := by
  cases hc : Cart.findOne s.carts user.email with
  | some cart =>
    rw [addProductToCart_of_cart hc]
    by_cases hdup : (cart.cartItems.find? (fun item => item.product._id == productId)).isSome
    · simp [hdup]
    · cases hp : Product.findById s.products productId <;> simp [hdup]
  | none =>
    cases createRejected with
    | true => simp [addProductToCart_of_rejected hc]
    | false =>
      rw [addProductToCart_of_created hc]
      cases hp : Product.findById s.products productId <;> simp

theorem updateProductInCart_users (s : Store) (user : User) (productId : String)
    (quantity : Int) :
    (updateProductInCart s user productId quantity).store.users = s.users ∧
    (updateProductInCart s user productId quantity).store.products = s.products := by
  cases hr : (updateProductInCart s user productId quantity).result with
  | error e => simp [updateProductInCart_error hr]
  | ok c1 =>
    obtain ⟨_, _, _, _, _, _, _, _, _, _, hstore⟩ := updateProductInCart_ok hr
    simp [hstore]

theorem deleteProductFromCart_users (s : Store) (user : User) (productId : String) :
    (deleteProductFromCart s user productId).store.users = s.users ∧
    (deleteProductFromCart s user productId).store.products = s.products := by
  cases hr : (deleteProductFromCart s user productId).result with
  | error e => simp [deleteProductFromCart_error hr]
  | ok c1 =>
    obtain ⟨_, _, _, _, _, _, _, _, _, hstore⟩ := deleteProductFromCart_ok hr
    simp [hstore]

/-- Carts after an add: each one was stored before, or is the empty cart that
was created for the user, or is the cart the call returned. -/
theorem addProductToCart_mem_carts {createRejected : Bool} {s : Store} {user : User}
    {productId : String} {quantity : Int} {x : Cart}
    (hx : x ∈ (addProductToCart createRejected s user productId quantity).store.carts) :
    x ∈ s.carts ∨ x = ⟨user.email, [], PAYMENT_OPTION_DEFAULT⟩ ∨
      (addProductToCart createRejected s user productId quantity).result = .ok x := by
  cases hc : Cart.findOne s.carts user.email with
  | some cart =>
    rw [addProductToCart_of_cart hc] at hx ⊢
    by_cases hdup : (cart.cartItems.find? (fun item => item.product._id == productId)).isSome
    · simp only [hdup, if_true] at hx
      exact Or.inl hx
    · cases hp : Product.findById s.products productId with
      | none =>
        simp only [hdup, hp, if_false, Bool.false_eq_true] at hx
        exact Or.inl hx
      | some product =>
        simp only [hdup, hp, if_false, Bool.false_eq_true] at hx ⊢
        rcases Cart.mem_save hx with h | h
        · exact Or.inl h
        · exact Or.inr (Or.inr (by rw [h]))
  | none =>
    cases createRejected with
    | true =>
      rw [addProductToCart_of_rejected hc] at hx
      exact Or.inl hx
    | false =>
      rw [addProductToCart_of_created hc] at hx ⊢
      cases hp : Product.findById s.products productId with
      | none =>
        simp only [hp] at hx
        rcases List.mem_append.mp hx with h | h
        · exact Or.inl h
        · exact Or.inr (Or.inl (List.mem_singleton.mp h))
      | some product =>
        simp only [hp] at hx ⊢
        rcases Cart.mem_save hx with h | h
        · rcases List.mem_append.mp h with h | h
          · exact Or.inl h
          · exact Or.inr (Or.inl (List.mem_singleton.mp h))
        · exact Or.inr (Or.inr (by rw [h]))

theorem updateProductInCart_mem_carts {s : Store} {user : User} {productId : String}
    {quantity : Int} {x : Cart}
    (hx : x ∈ (updateProductInCart s user productId quantity).store.carts) :
    x ∈ s.carts ∨ (updateProductInCart s user productId quantity).result = .ok x := by
  cases hr : (updateProductInCart s user productId quantity).result with
  | error e =>
    rw [updateProductInCart_error hr] at hx
    exact Or.inl hx
  | ok c1 =>
    obtain ⟨_, _, _, _, _, _, _, _, _, _, hstore⟩ := updateProductInCart_ok hr
    rw [hstore] at hx
    rcases Cart.mem_save hx with h | h
    · exact Or.inl h
    · exact Or.inr (by rw [h])

theorem deleteProductFromCart_mem_carts {s : Store} {user : User} {productId : String}
    {x : Cart} (hx : x ∈ (deleteProductFromCart s user productId).store.carts) :
    x ∈ s.carts ∨ (deleteProductFromCart s user productId).result = .ok x := by
  cases hr : (deleteProductFromCart s user productId).result with
  | error e =>
    rw [deleteProductFromCart_error hr] at hx
    exact Or.inl hx
  | ok c1 =>
    obtain ⟨_, _, _, _, _, _, _, _, _, hstore⟩ := deleteProductFromCart_ok hr
    rw [hstore] at hx
    rcases Cart.mem_save hx with h | h
    · exact Or.inl h
    · exact Or.inr (by rw [h])

theorem checkout_mem_carts {s : Store} {user : User} {x : Cart}
    (hx : x ∈ (checkout s user).store.carts) : x ∈ s.carts ∨ x.cartItems = [] := by
  rcases checkout_carts s user with hc | ⟨cart, hc⟩
  · rw [hc] at hx
    exact Or.inl hx
  · rw [hc] at hx
    rcases Cart.mem_save hx with h | h
    · exact Or.inl h
    · exact Or.inr (by rw [h])

/-! ## Quantities -/

/-- C12, as stated, fails: on a store without carts, `addProductToCart` with
quantity 0 succeeds and stores an item whose quantity is 0. -/
theorem quantitiesPositive_counterexample :
    QuantitiesPositive freshStore ∧
    (addProductToCart false freshStore crioUser ball._id 0).result
      = .ok ⟨crioUser.email, [⟨ball, 0⟩], PAYMENT_OPTION_DEFAULT⟩ ∧
    ¬ QuantitiesPositive (addProductToCart false freshStore crioUser ball._id 0).store :=
  ⟨by decide, rfl, by decide⟩

/-- C12, amended: the predicate "every item of every cart has a quantity that
is an integer of at least one" is preserved by `getCartByUser`,
`deleteProductFromCart` and `checkout` for every argument, and by
`addProductToCart` and `updateProductInCart` whenever the quantity passed is an
integer of at least one (quantities are integers here, `quantity : Int`). The
service does not test the quantity: after a successful add the new item, and
after a successful update the item at the first index with that product id,
carries exactly the integer quantity that was passed. -/
theorem quantitiesPositive_preserved :
    (∀ s user, QuantitiesPositive s → QuantitiesPositive (getCartByUser s user).store) ∧
    (∀ createRejected s user productId quantity, 1 ≤ quantity → QuantitiesPositive s →
      QuantitiesPositive (addProductToCart createRejected s user productId quantity).store) ∧
    (∀ s user productId quantity, 1 ≤ quantity → QuantitiesPositive s →
      QuantitiesPositive (updateProductInCart s user productId quantity).store) ∧
    (∀ s user productId, QuantitiesPositive s →
      QuantitiesPositive (deleteProductFromCart s user productId).store) ∧
    (∀ s user, QuantitiesPositive s → QuantitiesPositive (checkout s user).store) ∧
    (∀ createRejected s user productId quantity cart1,
      (addProductToCart createRejected s user productId quantity).result = .ok cart1 →
      ∃ items product, cart1.cartItems = items ++ [⟨product, quantity⟩]) ∧
    (∀ s user productId quantity cart1,
      (updateProductInCart s user productId quantity).result = .ok cart1 →
      ∃ (l1 : List CartItem) (x : CartItem) (l2 : List CartItem),
        (∀ y ∈ l1, y.product._id ≠ productId) ∧ x.product._id = productId ∧
        cart1.cartItems = l1 ++ ⟨x.product, quantity⟩ :: l2) := by
  refine ⟨?_, ?_, ?_, ?_, ?_, ?_, ?_⟩
  · intro s user h
    rw [getCartByUser_store]
    exact h
  · intro r s user productId quantity hq h x hx it hit
    rcases addProductToCart_mem_carts hx with hx | hx | hx
    · exact h x hx it hit
    · rw [hx] at hit
      cases hit
    · obtain ⟨product, items, _, hitems, _, _, hci, _⟩ := addProductToCart_ok hx
      rw [hci] at hit
      rcases List.mem_append.mp hit with hit | hit
      · rcases hitems with ⟨cart, hc, he⟩ | ⟨_, _, he⟩
        · exact h cart (Cart.findOne_mem hc) it (he ▸ hit)
        · rw [he] at hit
          cases hit
      · rw [List.mem_singleton.mp hit]
        exact hq
  · intro s user productId quantity hq h x hx it hit
    rcases updateProductInCart_mem_carts hx with hx | hx
    · exact h x hx it hit
    · obtain ⟨cart, l1, y, l2, hc, _, hxs, _, _, hshape, _⟩ := updateProductInCart_ok hx
      have hold := h cart (Cart.findOne_mem hc)
      rw [hshape] at hit
      rcases List.mem_append.mp hit with hit | hit
      · exact hold it (by rw [hxs]; exact List.mem_append_left _ hit)
      · rcases List.mem_cons.mp hit with hit | hit
        · rw [hit]
          exact hq
        · exact hold it (by rw [hxs]; exact List.mem_append_right _ (List.mem_cons_of_mem _ hit))
  · intro s user productId h x hx it hit
    rcases deleteProductFromCart_mem_carts hx with hx | hx
    · exact h x hx it hit
    · obtain ⟨cart, l1, y, l2, hc, hxs, _, _, hshape, _⟩ := deleteProductFromCart_ok hx
      have hold := h cart (Cart.findOne_mem hc)
      rw [hshape] at hit
      rcases List.mem_append.mp hit with hit | hit
      · exact hold it (by rw [hxs]; exact List.mem_append_left _ hit)
      · exact hold it (by rw [hxs]; exact List.mem_append_right _ (List.mem_cons_of_mem _ hit))
  · intro s user h x hx it hit
    rcases checkout_mem_carts hx with hx | hx
    · exact h x hx it hit
    · rw [hx] at hit
      cases hit
  · intro r s user productId quantity cart1 hok
    obtain ⟨product, items, _, _, _, _, hci, _⟩ := addProductToCart_ok hok
    exact ⟨items, product, hci⟩
  · intro s user productId quantity cart1 hok
    obtain ⟨cart, l1, x, l2, _, _, _, hx, hl1, hshape, _⟩ := updateProductInCart_ok hok
    exact ⟨l1, x, l2, hl1, hx, by rw [hshape]⟩

/-- Witness of C12, amended: with quantity 3 the add keeps all quantities
positive, and so does an update to quantity 7. -/
theorem quantitiesPositive_preserved_witness :
    QuantitiesPositive sampleStore ∧
    QuantitiesPositive (addProductToCart false sampleStore newUser ball._id 3).store ∧
    QuantitiesPositive (updateProductInCart sampleStore newUser bat._id 7).store ∧
    QuantitiesPositive (checkout sampleStore crioUser).store :=
  ⟨by decide,
    quantitiesPositive_preserved.2.1 false sampleStore newUser ball._id 3 (by decide)
      (by decide),
    quantitiesPositive_preserved.2.2.1 sampleStore newUser bat._id 7 (by decide) (by decide),
    quantitiesPositive_preserved.2.2.2.2.1 sampleStore crioUser (by decide)⟩

/-! ## Wallets -/

theorem User.mem_of_mem_save {users : List User} {u x : User} (h : x ∈ User.save users u) :
    x ∈ users ∨ x = u := by
  induction users with
  | nil => simp [User.save] at h
  | cons d ds ih =>
    by_cases hd : d.email = u.email
    · simp only [User.save, beq_iff_eq, hd, if_true, List.mem_cons] at h
      rcases h with h | h
      · exact Or.inr h
      · exact Or.inl (List.mem_cons_of_mem _ h)
    · simp only [User.save, beq_iff_eq, hd, if_false, List.mem_cons] at h
      rcases h with h | h
      · exact Or.inl (h ▸ List.mem_cons_self _ _)
      · rcases ih h with h1 | h1
        · exact Or.inl (List.mem_cons_of_mem _ h1)
        · exact Or.inr h1

/-- What `checkout` does to the user: nothing, or a debit of a total that is
at most the wallet, written to the user object and to the users collection. -/
theorem checkout_user_cases (s : Store) (user : User) :
    ((checkout s user).user = user ∧ (checkout s user).store.users = s.users) ∨
    ∃ total : Int, total ≤ user.walletMoney ∧
      (checkout s user).user = { user with walletMoney := user.walletMoney - total } ∧
      (checkout s user).store.users
        = User.save s.users { user with walletMoney := user.walletMoney - total } := by
  cases hc : Cart.findOne s.carts user.email with
  | none => simp [checkout, hc]
  | some cart =>
    simp only [checkout, hc]
    split_ifs with h1 h2 h3
    · exact Or.inl ⟨rfl, rfl⟩
    · exact Or.inl ⟨rfl, rfl⟩
    · exact Or.inl ⟨rfl, rfl⟩
    · exact Or.inr ⟨cartTotal cart.cartItems, not_lt.mp h3, rfl, rfl⟩

/-- C13: a wallet that is non-negative before a call is non-negative after it.
After `checkout`, successful or not and whatever the costs and quantities in
the cart are, the wallet of the user object is non-negative, and when all
stored wallets were non-negative they still are; the other four operations
leave the stored wallets as they were. -/
theorem wallet_nonneg_invariant :
    (∀ s user, 0 ≤ user.walletMoney → 0 ≤ (checkout s user).user.walletMoney) ∧
    (∀ s user, 0 ≤ user.walletMoney → WalletsNonneg s →
      WalletsNonneg (checkout s user).store) ∧
    (∀ s user, WalletsNonneg s → WalletsNonneg (getCartByUser s user).store) ∧
    (∀ createRejected s user productId quantity, WalletsNonneg s →
      WalletsNonneg (addProductToCart createRejected s user productId quantity).store) ∧
    (∀ s user productId quantity, WalletsNonneg s →
      WalletsNonneg (updateProductInCart s user productId quantity).store) ∧
    (∀ s user productId, WalletsNonneg s →
      WalletsNonneg (deleteProductFromCart s user productId).store) := by
  refine ⟨?_, ?_, ?_, ?_, ?_, ?_⟩
  · intro s user h
    rcases checkout_user_cases s user with ⟨hu, _⟩ | ⟨total, hle, hu, _⟩
    · rw [hu]
      exact h
    · rw [hu]
      exact sub_nonneg.mpr hle
  · intro s user h hs u hu
    rcases checkout_user_cases s user with ⟨_, hst⟩ | ⟨total, hle, _, hst⟩
    · rw [hst] at hu
      exact hs u hu
    · rw [hst] at hu
      rcases User.mem_of_mem_save hu with hu | hu
      · exact hs u hu
      · rw [hu]
        exact sub_nonneg.mpr hle
  · intro s user hs
    rw [getCartByUser_store]
    exact hs
  · intro r s user productId quantity hs u hu
    rw [(addProductToCart_users r s user productId quantity).1] at hu
    exact hs u hu
  · intro s user productId quantity hs u hu
    rw [(updateProductInCart_users s user productId quantity).1] at hu
    exact hs u hu
  · intro s user productId hs u hu
    rw [(deleteProductFromCart_users s user productId).1] at hu
    exact hs u hu

/-- Witness of C13: `crioUser` pays 55 out of 100 and keeps a non-negative
wallet, in the user object and in the store. -/
theorem wallet_nonneg_invariant_witness :
    0 ≤ (checkout sampleStore crioUser).user.walletMoney ∧
    WalletsNonneg (checkout sampleStore crioUser).store ∧
    WalletsNonneg (addProductToCart false sampleStore newUser ball._id 3).store :=
  ⟨wallet_nonneg_invariant.1 sampleStore crioUser (by decide),
    wallet_nonneg_invariant.2.1 sampleStore crioUser (by decide) (by decide),
    wallet_nonneg_invariant.2.2.2.1 false sampleStore newUser ball._id 3 (by decide)⟩

/-- C15: `getCartByUser`, `addProductToCart`, `updateProductInCart` and
`deleteProductFromCart` leave the users collection, and with it the wallet of
every user, exactly as it was, whether they succeed or fail. -/
theorem wallets_untouched_outside_checkout :
    (∀ (s : Store) (user : User), (getCartByUser s user).store.users = s.users) ∧
    (∀ (createRejected : Bool) (s : Store) (user : User) (productId : String) (quantity : Int),
      (addProductToCart createRejected s user productId quantity).store.users = s.users) ∧
    (∀ (s : Store) (user : User) (productId : String) (quantity : Int),
      (updateProductInCart s user productId quantity).store.users = s.users) ∧
    (∀ (s : Store) (user : User) (productId : String),
      (deleteProductFromCart s user productId).store.users = s.users) := by
  refine ⟨?_, ?_, ?_, ?_⟩
  · intro s user
    rw [getCartByUser_store]
  · intro r s user productId quantity
    exact (addProductToCart_users r s user productId quantity).1
  · intro s user productId quantity
    exact (updateProductInCart_users s user productId quantity).1
  · intro s user productId
    exact (deleteProductFromCart_users s user productId).1

/-! ## getCartByUser -/

/-- C14: `getCartByUser` throws 404 "User does not have a cart" if and only
if no stored cart has the user's e-mail, and throws nothing else; otherwise it
returns the stored cart for that e-mail; in both cases the store after the call
is the store before it. -/
theorem getCartByUser_contract (s : Store) (user : User) :
    ((getCartByUser s user).result
        = .error ⟨httpStatus.NOT_FOUND, "User does not have a cart"⟩ ↔
      ∀ c ∈ s.carts, c.email ≠ user.email) ∧
    (∀ e, (getCartByUser s user).result = .error e →
      e = ⟨httpStatus.NOT_FOUND, "User does not have a cart"⟩) ∧
    (∀ cart, Cart.findOne s.carts user.email = some cart →
      (getCartByUser s user).result = .ok cart) ∧
    (∀ cart, (getCartByUser s user).result = .ok cart →
      cart ∈ s.carts ∧ cart.email = user.email ∧
      Cart.findOne s.carts user.email = some cart) ∧
    (getCartByUser s user).store = s := by
  have hnone : Cart.findOne s.carts user.email = none ↔
      ∀ c ∈ s.carts, c.email ≠ user.email := by
    simp [Cart.findOne, List.find?_eq_none]
  cases hc : Cart.findOne s.carts user.email with
  | none =>
    have hall := hnone.mp hc
    have hres : (getCartByUser s user).result
        = .error ⟨httpStatus.NOT_FOUND, "User does not have a cart"⟩ := by
      simp [getCartByUser, hc]
    refine ⟨⟨fun _ => hall, fun _ => hres⟩, ?_, ?_, ?_, getCartByUser_store s user⟩
    · intro e he
      rw [hres] at he
      injection he with he
      exact he.symm
    · intro cart hcart
      cases hcart
    · intro cart hcart
      rw [hres] at hcart
      cases hcart
  | some cart0 =>
    have hres : (getCartByUser s user).result = .ok cart0 := by
      simp [getCartByUser, hc]
    refine ⟨⟨?_, ?_⟩, ?_, ?_, ?_, getCartByUser_store s user⟩
    · intro he
      rw [hres] at he
      cases he
    · intro hall
      exact absurd (Cart.findOne_email hc) (hall cart0 (Cart.findOne_mem hc))
    · intro e he
      rw [hres] at he
      cases he
    · intro cart hcart
      cases hcart
      exact hres
    · intro cart hcart
      rw [hres] at hcart
      injection hcart with hcart
      subst hcart
      exact ⟨Cart.findOne_mem hc, Cart.findOne_email hc, rfl⟩

/-- Witness of C14: `crioUser` gets the stored cart on the sample store and
the 404 error on the store without carts. -/
theorem getCartByUser_contract_witness :
    (getCartByUser sampleStore crioUser).result = .ok crioCart ∧
    (getCartByUser freshStore crioUser).result
      = .error ⟨httpStatus.NOT_FOUND, "User does not have a cart"⟩ :=
  ⟨(getCartByUser_contract sampleStore crioUser).2.2.1 crioCart (by decide),
    (getCartByUser_contract freshStore crioUser).1.mpr (by decide)⟩

/-! ## Order of the checks in addProductToCart -/

/-- C16: when the user's cart already holds an item with product id `p`,
`addProductToCart` fails with 400 "Product already in cart. Use the cart
sidebar to update or remove product from cart", whether or not the lookup finds
the product, hence also when the product is absent. The error 400 "Product
doesn't exist in database" is thrown exactly when the lookup finds no product
and either the user's cart holds no item with id `p`, or the user has no cart
and the creation of the new cart succeeded. -/
theorem addProductToCart_check_order (createRejected : Bool) (s : Store) (user : User)
    (p : String) (q : Int) :
    (∀ cart, Cart.findOne s.carts user.email = some cart →
      (∃ it ∈ cart.cartItems, it.product._id = p) →
      (addProductToCart createRejected s user p q).result
        = .error ⟨httpStatus.BAD_REQUEST,
            "Product already in cart. Use the cart sidebar to update or remove product from cart"⟩ ∧
      (addProductToCart createRejected s user p q).result
        ≠ .error ⟨httpStatus.BAD_REQUEST, "Product doesn't exist in database"⟩) ∧
    ((addProductToCart createRejected s user p q).result
        = .error ⟨httpStatus.BAD_REQUEST, "Product doesn't exist in database"⟩ ↔
      Product.findById s.products p = none ∧
        ((∃ cart, Cart.findOne s.carts user.email = some cart ∧
            ∀ it ∈ cart.cartItems, it.product._id ≠ p) ∨
          (Cart.findOne s.carts user.email = none ∧ createRejected = false))) := by
  have hmsg : ("Product already in cart. Use the cart sidebar to update or remove product from cart"
      : String) ≠ "Product doesn't exist in database" := by decide
  constructor
  · intro cart hc hin
    have hdup : (cart.cartItems.find? (fun item => item.product._id == p)).isSome = true :=
      (find?_isSome_iff_exists _ _).mpr hin
    have hres : (addProductToCart createRejected s user p q).result
        = .error ⟨httpStatus.BAD_REQUEST,
            "Product already in cart. Use the cart sidebar to update or remove product from cart"⟩ := by
      rw [addProductToCart_of_cart hc]
      simp [hdup]
    refine ⟨hres, ?_⟩
    rw [hres]
    intro h
    injection h with h
    injection h with _ h
    exact hmsg h
  · cases hc : Cart.findOne s.carts user.email with
    | some cart =>
      rw [addProductToCart_of_cart hc]
      by_cases hdup : (cart.cartItems.find? (fun item => item.product._id == p)).isSome = true
      · have hin := (find?_isSome_iff_exists _ _).mp hdup
        simp only [hdup, if_true]
        constructor
        · intro h
          injection h with h
          injection h with _ h
          exact absurd h hmsg
        · rintro ⟨_, ⟨cart0, hc0, hno⟩ | ⟨hc0, _⟩⟩
          · cases hc0
            obtain ⟨it, hit, hid⟩ := hin
            exact absurd hid (hno it hit)
          · cases hc0
      · have hno : ∀ it ∈ cart.cartItems, it.product._id ≠ p := by
          intro it hit hid
          exact hdup ((find?_isSome_iff_exists _ _).mpr ⟨it, hit, hid⟩)
        cases hp : Product.findById s.products p with
        | none =>
          simp only [hdup, if_false, Bool.false_eq_true]
          exact ⟨fun _ => ⟨trivial, Or.inl ⟨cart, rfl, hno⟩⟩, fun _ => trivial⟩
        | some product =>
          simp only [hdup, if_false, Bool.false_eq_true]
          constructor
          · intro h
            cases h
          · rintro ⟨h, _⟩
            cases h
    | none =>
      cases createRejected with
      | true =>
        rw [addProductToCart_of_rejected hc]
        constructor
        · intro h
          injection h with h
          injection h with h _
          exact absurd h (by decide)
        · rintro ⟨_, ⟨cart0, hc0, _⟩ | ⟨_, hr⟩⟩
          · cases hc0
          · cases hr
      | false =>
        rw [addProductToCart_of_created hc]
        cases hp : Product.findById s.products p with
        | none => exact ⟨fun _ => ⟨rfl, Or.inr ⟨rfl, rfl⟩⟩, fun _ => rfl⟩
        | some product =>
          constructor
          · intro h
            cases h
          · rintro ⟨h, _⟩
            cases h

/-- Witness of C16: `crioUser` holds a ball in the cart; once the ball is gone
from the product collection, adding it again is refused as a duplicate. -/
theorem addProductToCart_check_order_witness :
    Product.findById [bat] ball._id = none ∧
    (addProductToCart false { sampleStore with products := [bat] } crioUser ball._id 1).result
      = .error ⟨httpStatus.BAD_REQUEST,
          "Product already in cart. Use the cart sidebar to update or remove product from cart"⟩ :=
  ⟨by decide,
    ((addProductToCart_check_order false { sampleStore with products := [bat] } crioUser
      ball._id 1).1 crioCart (by decide) ⟨⟨ball, 2⟩, by decide, rfl⟩).1⟩

/-! ## Add followed by delete -/

theorem findIndex_append_first {α : Type} (p : α → Bool) (l1 : List α) (x : α) (l2 : List α)
    (hl1 : ∀ y ∈ l1, p y = false) (hx : p x = true) :
    findIndex p (l1 ++ x :: l2) = l1.length := by
  induction l1 with
  | nil => simp [findIndex, hx]
  | cons a l1 ih =>
    have ha : p a = false := hl1 a (List.mem_cons_self _ _)
    have ih1 := ih (fun y hy => hl1 y (List.mem_cons_of_mem _ hy))
    have hnn : ¬ findIndex p (l1 ++ x :: l2) < 0 := by
      rw [ih1]
      omega
    have e : findIndex p (a :: (l1 ++ x :: l2)) = findIndex p (l1 ++ x :: l2) + 1 := by
      simp [findIndex, ha, hnn]
    rw [List.cons_append, e, ih1, List.length_cons]
    push_cast
    rfl

theorem Cart.save_restore {carts : List Cart} {c c1 : Cart}
    (h : Cart.findOne carts c.email = some c) (he : c1.email = c.email) :
    Cart.save (Cart.save carts c1) c = carts := by
  induction carts with
  | nil => rfl
  | cons d ds ih =>
    unfold Cart.findOne at h ih
    by_cases hd : d.email = c.email
    · have hdc : d = c := by simpa [List.find?_cons, hd] using h
      simp [Cart.save, hd, he, hdc]
    · have hd1 : ¬ d.email = c1.email := by rwa [he]
      have h1 : List.find? (fun x => x.email == c.email) ds = some c := by
        simpa [List.find?_cons, hd] using h
      simp [Cart.save, hd, hd1, ih h1]

/-- Round trip when the product is looked up by the text of its id: for a user
whose cart exists and holds no item with product id `p`, a successful add of `p`
followed by a delete of `p` returns the cart as it was before the add, and the
store is the one before the add. -/
theorem add_then_delete_restores (createRejected : Bool) (s : Store) (user : User)
    (p : String) (q : Int) (cart cart1 : Cart)
    (hcart : Cart.findOne s.carts user.email = some cart)
    (hfresh : ∀ it ∈ cart.cartItems, it.product._id ≠ p)
    (hadd : (addProductToCart createRejected s user p q).result = .ok cart1) :
    (deleteProductFromCart (addProductToCart createRejected s user p q).store user p).result
      = .ok cart ∧
    Cart.findOne
      (deleteProductFromCart (addProductToCart createRejected s user p q).store user p).store.carts
      user.email = some cart ∧
    (deleteProductFromCart (addProductToCart createRejected s user p q).store user p).store
      = s := by
  have hemail : cart.email = user.email := Cart.findOne_email hcart
  have hdup : ¬ (cart.cartItems.find? (fun item => item.product._id == p)).isSome = true := by
    intro h
    obtain ⟨it, hit, hid⟩ := (find?_isSome_iff_exists _ _).mp h
    exact hfresh it hit hid
  cases hp : Product.findById s.products p with
  | none => simp [addProductToCart_of_cart hcart, hdup, hp] at hadd
  | some product =>
    have hid : product._id = p := Product.findById_id hp
    have hout : addProductToCart createRejected s user p q
        = ⟨.ok { cart with cartItems := cart.cartItems ++ [⟨product, q⟩] },
          { s with carts := (Cart.save s.carts
              { cart with cartItems := cart.cartItems ++ [⟨product, q⟩] }) }⟩ := by
      rw [addProductToCart_of_cart hcart]
      simp [hdup, hp]
    rw [hout]
    have h1 : Cart.findOne s.carts
        ({ cart with cartItems := cart.cartItems ++ [⟨product, q⟩] } : Cart).email
          = some cart := by
      simpa [hemail] using hcart
    have hfound : Cart.findOne
        (Cart.save s.carts { cart with cartItems := cart.cartItems ++ [⟨product, q⟩] })
        user.email = some { cart with cartItems := cart.cartItems ++ [⟨product, q⟩] } := by
      have h2 := Cart.findOne_save h1
      simpa [hemail] using h2
    have hidx : findIndex (fun it => it.product._id == p)
        (cart.cartItems ++ [(⟨product, q⟩ : CartItem)]) = cart.cartItems.length :=
      findIndex_append_first _ cart.cartItems ⟨product, q⟩ []
        (fun y hy => by simpa using hfresh y hy) (by simpa using hid)
    have hnn : ¬ ((cart.cartItems.length : Int) < 0) := by omega
    have herase : (cart.cartItems ++ [(⟨product, q⟩ : CartItem)]).eraseIdx
        cart.cartItems.length = cart.cartItems := by
      have := eraseIdx_append_cons cart.cartItems (⟨product, q⟩ : CartItem) []
      simpa using this
    have hrestore : Cart.save
        (Cart.save s.carts { cart with cartItems := cart.cartItems ++ [⟨product, q⟩] }) cart
          = s.carts :=
      @Cart.save_restore s.carts cart
        { cart with cartItems := cart.cartItems ++ [⟨product, q⟩] }
        (by simpa [hemail] using hcart) rfl
    have hdel : deleteProductFromCart
        { s with carts := (Cart.save s.carts
            { cart with cartItems := cart.cartItems ++ [⟨product, q⟩] }) } user p
          = ⟨.ok cart, s⟩ := by
      simp only [deleteProductFromCart, hfound, hidx, hnn, if_false, Int.toNat_ofNat, herase,
        hrestore]
    rw [hdel]
    exact ⟨rfl, hcart, rfl⟩

theorem addProductToCartAnyCase_of_canonical (createRejected : Bool) (s : Store)
    (user : User) (productId : String) (quantity : Int)
    (h : castObjectId productId = productId) :
    addProductToCartAnyCase createRejected s user productId quantity
      = addProductToCart createRejected s user productId quantity := by
  simp only [addProductToCartAnyCase, addProductToCart, Product.findByIdAnyCase, h]

/-- Round trip for an id written as the store writes it: when the cast leaves
`p` unchanged, the user's cart exists and holds no item with product id `p`, a
successful add of `p` followed by a delete of `p` returns the cart as it was
before the add, and the store is the one before the add. -/
theorem add_then_delete_restores_of_canonical (createRejected : Bool) (s : Store)
    (user : User) (p : String) (q : Int) (cart cart1 : Cart)
    (hcanon : castObjectId p = p)
    (hcart : Cart.findOne s.carts user.email = some cart)
    (hfresh : ∀ it ∈ cart.cartItems, it.product._id ≠ p)
    (hadd : (addProductToCartAnyCase createRejected s user p q).result = .ok cart1) :
    (deleteProductFromCart (addProductToCartAnyCase createRejected s user p q).store
        user p).result = .ok cart ∧
    (deleteProductFromCart (addProductToCartAnyCase createRejected s user p q).store
        user p).store = s := by
  rw [addProductToCartAnyCase_of_canonical createRejected s user p q hcanon] at hadd ⊢
  have h := add_then_delete_restores createRejected s user p q cart cart1 hcart hfresh hadd
  exact ⟨h.1, h.2.2⟩

/-- C17 fails on the code for a product id written in upper case. `newUser`
holds four bats and no item with the id `5F71C1CA04C69A5874E9FD45`; the cast of
that id is the id of the ball, so the add finds the ball, succeeds, and stores
the ball behind the bats. The delete of the same id compares it with the
lower-case `_id` of each item, finds no match, and throws 400 "Product not in
cart"; the ball stays in the cart. -/
theorem add_then_delete_uppercase_id :
    castObjectId "5F71C1CA04C69A5874E9FD45" = ball._id ∧
    Cart.findOne sampleStore.carts newUser.email = some newCart ∧
    (∀ it ∈ newCart.cartItems, it.product._id ≠ "5F71C1CA04C69A5874E9FD45") ∧
    (addProductToCartAnyCase false sampleStore newUser "5F71C1CA04C69A5874E9FD45" 3).result
      = .ok { newCart with cartItems := newCart.cartItems ++ [⟨ball, 3⟩] } ∧
    (deleteProductFromCart
        (addProductToCartAnyCase false sampleStore newUser "5F71C1CA04C69A5874E9FD45" 3).store
        newUser "5F71C1CA04C69A5874E9FD45").result
      = .error ⟨httpStatus.BAD_REQUEST, "Product not in cart"⟩ ∧
    Cart.findOne
      (deleteProductFromCart
        (addProductToCartAnyCase false sampleStore newUser "5F71C1CA04C69A5874E9FD45" 3).store
        newUser "5F71C1CA04C69A5874E9FD45").store.carts newUser.email
      = some { newCart with cartItems := newCart.cartItems ++ [⟨ball, 3⟩] } :=
  ⟨by decide, by decide, by decide, rfl, rfl, by decide⟩

/-! ## Isolation between users -/

theorem Cart.findOne_append_of_ne {carts : List Cart} {c : Cart} {email : String}
    (h : email ≠ c.email) :
    Cart.findOne (carts ++ [c]) email = Cart.findOne carts email := by
  unfold Cart.findOne
  rw [List.find?_append]
  have hc : ¬ c.email = email := fun h1 => h h1.symm
  cases List.find? (fun c => c.email == email) carts <;> simp [List.find?_cons, hc]

theorem User.findOne_other_after_save {users : List User} {u : User} {email : String}
    (h : email ≠ u.email) :
    User.findOne (User.save users u) email = User.findOne users email := by
  induction users with
  | nil => rfl
  | cons d ds ih =>
    unfold User.findOne at ih ⊢
    by_cases hd : d.email = u.email
    · have hde : ¬ d.email = email := fun h1 => h (h1 ▸ hd)
      simp [User.save, hd, List.find?_cons, hde, Ne.symm h]
    · by_cases hde : d.email = email
      · subst hde
        simp [User.save, hd, List.find?_cons]
      · simp [User.save, hd, List.find?_cons, hde, ih]

theorem addProductToCart_findOne_other (createRejected : Bool) (s : Store) (user : User)
    (productId : String) (quantity : Int) {email : String} (h : email ≠ user.email) :
    Cart.findOne (addProductToCart createRejected s user productId quantity).store.carts email
      = Cart.findOne s.carts email := by
  cases hc : Cart.findOne s.carts user.email with
  | some cart =>
    have hemail : cart.email = user.email := Cart.findOne_email hc
    rw [addProductToCart_of_cart hc]
    by_cases hdup : (cart.cartItems.find? (fun item => item.product._id == productId)).isSome
    · simp [hdup]
    · cases hp : Product.findById s.products productId with
      | none => simp [hdup]
      | some product =>
        simp only [hdup, if_false, Bool.false_eq_true]
        exact Cart.findOne_save_of_ne (by rw [hemail]; exact h)
  | none =>
    cases createRejected with
    | true => rw [addProductToCart_of_rejected hc]
    | false =>
      rw [addProductToCart_of_created hc]
      cases hp : Product.findById s.products productId with
      | none => exact Cart.findOne_append_of_ne (c := ⟨user.email, [], PAYMENT_OPTION_DEFAULT⟩) h
      | some product =>
        have h1 : Cart.findOne (Cart.save (s.carts ++ [⟨user.email, [], PAYMENT_OPTION_DEFAULT⟩])
            ⟨user.email, [⟨product, quantity⟩], PAYMENT_OPTION_DEFAULT⟩) email
              = Cart.findOne (s.carts ++ [⟨user.email, [], PAYMENT_OPTION_DEFAULT⟩]) email :=
          Cart.findOne_save_of_ne
            (c := ⟨user.email, [⟨product, quantity⟩], PAYMENT_OPTION_DEFAULT⟩) h
        exact h1.trans
          (Cart.findOne_append_of_ne (c := ⟨user.email, [], PAYMENT_OPTION_DEFAULT⟩) h)

theorem updateProductInCart_findOne_other (s : Store) (user : User) (productId : String)
    (quantity : Int) {email : String} (h : email ≠ user.email) :
    Cart.findOne (updateProductInCart s user productId quantity).store.carts email
      = Cart.findOne s.carts email := by
  cases hr : (updateProductInCart s user productId quantity).result with
  | error e => rw [updateProductInCart_error hr]
  | ok c1 =>
    obtain ⟨cart, _, _, _, hc, _, _, _, _, hshape, hstore⟩ := updateProductInCart_ok hr
    have hcart : cart.email = user.email := Cart.findOne_email hc
    have hemail : c1.email = user.email := by
      rw [hshape]
      exact hcart
    rw [hstore]
    exact Cart.findOne_save_of_ne (by rw [hemail]; exact h)

theorem deleteProductFromCart_findOne_other (s : Store) (user : User) (productId : String)
    {email : String} (h : email ≠ user.email) :
    Cart.findOne (deleteProductFromCart s user productId).store.carts email
      = Cart.findOne s.carts email := by
  cases hr : (deleteProductFromCart s user productId).result with
  | error e => rw [deleteProductFromCart_error hr]
  | ok c1 =>
    obtain ⟨cart, _, _, _, hc, _, _, _, hshape, hstore⟩ := deleteProductFromCart_ok hr
    have hcart : cart.email = user.email := Cart.findOne_email hc
    have hemail : c1.email = user.email := by
      rw [hshape]
      exact hcart
    rw [hstore]
    exact Cart.findOne_save_of_ne (by rw [hemail]; exact h)

theorem checkout_findOne_other (s : Store) (user : User) {email : String}
    (h : email ≠ user.email) :
    Cart.findOne (checkout s user).store.carts email = Cart.findOne s.carts email ∧
    User.findOne (checkout s user).store.users email = User.findOne s.users email := by
  constructor
  · cases hc : Cart.findOne s.carts user.email with
    | none => simp [checkout, hc]
    | some cart =>
      have hemail : cart.email = user.email := Cart.findOne_email hc
      simp only [checkout, hc]
      split_ifs
      · rfl
      · rfl
      · rfl
      · exact Cart.findOne_save_of_ne (c := { cart with cartItems := [] })
          (by rw [hemail]; exact h)
  · rcases checkout_user_cases s user with ⟨_, hst⟩ | ⟨total, _, _, hst⟩
    · rw [hst]
    · rw [hst]
      exact User.findOne_other_after_save
        (u := { user with walletMoney := user.walletMoney - total }) h

/-- C18: a call made for a user with e-mail `e` leaves what the store holds
for any other e-mail as it was, whether the call succeeds or fails: the cart
found for the other e-mail (its existence and its items) and the stored user
found for it (with its wallet) are the same after the call as before. This
holds for all five operations. -/
theorem per_user_isolation (email : String) :
    (∀ s user, email ≠ user.email →
      Cart.findOne (getCartByUser s user).store.carts email = Cart.findOne s.carts email ∧
      User.findOne (getCartByUser s user).store.users email = User.findOne s.users email) ∧
    (∀ createRejected s user productId quantity, email ≠ user.email →
      Cart.findOne (addProductToCart createRejected s user productId quantity).store.carts email
        = Cart.findOne s.carts email ∧
      User.findOne (addProductToCart createRejected s user productId quantity).store.users email
        = User.findOne s.users email) ∧
    (∀ s user productId quantity, email ≠ user.email →
      Cart.findOne (updateProductInCart s user productId quantity).store.carts email
        = Cart.findOne s.carts email ∧
      User.findOne (updateProductInCart s user productId quantity).store.users email
        = User.findOne s.users email) ∧
    (∀ s user productId, email ≠ user.email →
      Cart.findOne (deleteProductFromCart s user productId).store.carts email
        = Cart.findOne s.carts email ∧
      User.findOne (deleteProductFromCart s user productId).store.users email
        = User.findOne s.users email) ∧
    (∀ s user, email ≠ user.email →
      Cart.findOne (checkout s user).store.carts email = Cart.findOne s.carts email ∧
      User.findOne (checkout s user).store.users email = User.findOne s.users email) := by
  refine ⟨?_, ?_, ?_, ?_, ?_⟩
  · intro s user _
    rw [getCartByUser_store]
    exact ⟨rfl, rfl⟩
  · intro r s user productId quantity h
    refine ⟨addProductToCart_findOne_other r s user productId quantity h, ?_⟩
    rw [(addProductToCart_users r s user productId quantity).1]
  · intro s user productId quantity h
    refine ⟨updateProductInCart_findOne_other s user productId quantity h, ?_⟩
    rw [(updateProductInCart_users s user productId quantity).1]
  · intro s user productId h
    refine ⟨deleteProductFromCart_findOne_other s user productId h, ?_⟩
    rw [(deleteProductFromCart_users s user productId).1]
  · intro s user h
    exact checkout_findOne_other s user h

/-- Witness of C18: the checkout of `crioUser` and an add by `crioUser` leave
the cart and the wallet of `newUser` untouched. -/
theorem per_user_isolation_witness :
    Cart.findOne (checkout sampleStore crioUser).store.carts newUser.email = some newCart ∧
    User.findOne (checkout sampleStore crioUser).store.users newUser.email = some newUser ∧
    Cart.findOne (addProductToCart false freshStore crioUser ball._id 1).store.carts
      newUser.email = none := by
  have h1 := (per_user_isolation newUser.email).2.2.2.2 sampleStore crioUser (by decide)
  have h2 := (per_user_isolation newUser.email).2.1 false freshStore crioUser ball._id 1
    (by decide)
  refine ⟨?_, ?_, ?_⟩
  · rw [h1.1]
    decide
  · rw [h1.2]
    decide
  · rw [h2.1]
    decide

end Qkart
